import Mathlib

/-!
# Modelo formal de la liquidación KAKIS (repositorio Asb74/Liquidaciones)

Incrustación superficial en Lean 4 de la lógica económica del repositorio:

* `utils.parse_decimal`            → `parse_decimal`
* `config.q4`                      → `q4`
* `normalizador_anecop.cargar_anecop` (fase de agregación, líneas 95-123)
                                   → `cargar_anecop`
* `correspondencia_calibres.build_calibre_mapping` → `build_calibre_mapping`
* `globalgap.calcular_fondo_globalgap`             → `calcular_fondo_globalgap`
* `calculador.calcular_modelo_final`               → `calcular_modelo_final`
* `validaciones.*`                 → `validar_*`

Convenciones del modelo:

* `Decimal` de Python se modela como `ℚ` con aritmética exacta.  Las sumas,
  restas y productos de `Decimal` son exactos, de modo que la única
  diferencia con Python es que la división de `Decimal` redondea a 28
  dígitos significativos mientras que `ℚ` es exacta; ninguna propiedad
  aquí demostrada depende de ese resto.  El valor especial `Decimal NaN`
  (que en Python aparece al parsear un `float NaN` procedente de un join
  fallido) se modela con `Option ℚ` (`none` = NaN) allí donde puede surgir.
* Las tablas `pandas` se modelan como listas de registros tipados; el
  orden de las filas tras un `groupby` difiere del de pandas (pandas
  ordena por clave) salvo donde el orden es observable en el resultado,
  en cuyo caso se ordena explícitamente con `insSort`.
* Las operaciones de cadena de Python (`strip`, `upper`, `lower`,
  `replace`) se modelan con funciones estructurales sobre `List Char`
  para que el núcleo de Lean pueda evaluarlas.
-/

attribute [local semireducible] Rat.add Rat.mul Rat.sub Rat.inv

deriving instance DecidableEq for Except

namespace Liquidaciones

/-! ## Aritmética decimal: `config.q4` (ROUND_HALF_UP a 4 decimales) -/

/-- Redondeo al entero más próximo, con los empates lejos de cero
(`decimal.ROUND_HALF_UP` de Python). -/
def halfUpInt (x : ℚ) : ℤ :=
  if 0 ≤ x then ⌊x + 1/2⌋ else -⌊-x + 1/2⌋

/-- `config.q4`: `value.quantize(Decimal("0.0001"), rounding=ROUND_HALF_UP)`. -/
def q4 (x : ℚ) : ℚ :=
  (halfUpInt (x * 10000) : ℚ) / 10000

/-! ## Operaciones de cadena al estilo Python (estructurales) -/

/-- `str.strip()` de Python (espacios en blanco por defecto). -/
def pyStrip (s : String) : String :=
  ⟨((s.data.dropWhile Char.isWhitespace).reverse.dropWhile Char.isWhitespace).reverse⟩

/-- `str.upper()` de Python, restringido al mapeo por carácter. -/
def pyUpper (s : String) : String := ⟨s.data.map Char.toUpper⟩

/-- `str.lower()` de Python, restringido al mapeo por carácter. -/
def pyLower (s : String) : String := ⟨s.data.map Char.toLower⟩

/-- `str.replace(c, "")` de Python para un patrón de un carácter. -/
def pyDeleteChar (c : Char) (s : String) : String :=
  ⟨s.data.filter (fun x => x ≠ c)⟩

/-- `str.replace(c, d)` de Python para patrones de un carácter. -/
def pyReplaceChar (c d : Char) (s : String) : String :=
  ⟨s.data.map (fun x => if x = c then d else x)⟩

/-- Inserción ordenada (estable) respecto a un orden booleano. -/
def insSorted (le : α → α → Bool) (a : α) : List α → List α
  | [] => [a]
  | b :: l => if le a b then a :: b :: l else b :: insSorted le a l

/-- Ordenación por inserción: modelo computable de `sorted(...)` de Python
y de la ordenación por clave de `groupby` / `sort_values` de pandas
(estable y ascendente). -/
def insSort (le : α → α → Bool) : List α → List α
  | [] => []
  | a :: l => insSorted le a (insSort le l)

/-- Orden ascendente sobre enteros, como booleano. -/
def intLe (a b : Int) : Bool := decide (a ≤ b)

/-- Orden lexicográfico por punto de código sobre listas de caracteres. -/
def charsLe : List Char → List Char → Bool
  | [], _ => true
  | _ :: _, [] => false
  | a :: as, b :: bs =>
    if a.toNat < b.toNat then true
    else if b.toNat < a.toNat then false
    else charsLe as bs

/-- Orden ascendente sobre cadenas (lexicográfico por punto de código,
como la comparación de `str` en Python), como booleano. -/
def strLe (a b : String) : Bool := charsLe a.data b.data

/-! ## `utils.parse_decimal` -/

/-- Un valor de Python tal y como llega a `parse_decimal` o a `_num`:
`None`, `Decimal`, `int`, `float` (representado por su valor exacto; los
valores especiales `nan`/`inf` quedan fuera del modelo) o `str`. -/
inductive PyVal where
  | none
  | dec (q : ℚ)
  | int (n : Int)
  | float (q : ℚ)
  | str (s : String)

/-- Valor de una lista de dígitos decimales. -/
def digitsToNat (ds : List Char) : Nat :=
  ds.foldl (fun acc c => acc * 10 + (c.toNat - 48)) 0

/-- Consume un signo opcional; devuelve `true` si el signo es `-`. -/
def parseSign : List Char → (Bool × List Char)
  | '+' :: cs => (false, cs)
  | '-' :: cs => (true, cs)
  | cs => (false, cs)

/-- Literal decimal finito aceptado por `decimal.Decimal(str)`:
`[signo] (dígitos [. dígitos] | . dígitos) [(e|E) [signo] dígitos]`.
Los valores especiales (`NaN`, `Infinity`), no representables en `ℚ`,
quedan fuera del modelo. -/
def decLit? (s : String) : Option ℚ :=
  let (neg, cs) := parseSign s.data
  let ip := cs.takeWhile Char.isDigit
  let cs1 := cs.dropWhile Char.isDigit
  let (fp, cs2) :=
    match cs1 with
    | '.' :: rest => (rest.takeWhile Char.isDigit, rest.dropWhile Char.isDigit)
    | _ => (([] : List Char), cs1)
  if ip = [] ∧ fp = [] then none
  else
    let mant : ℚ := (digitsToNat ip : ℚ) + (digitsToNat fp : ℚ) / (10 ^ fp.length : ℚ)
    let signed : ℚ := if neg then -mant else mant
    match cs2 with
    | [] => some signed
    | c :: rest =>
      if c = 'e' ∨ c = 'E' then
        let (eneg, cs3) := parseSign rest
        let ed := cs3.takeWhile Char.isDigit
        let cs4 := cs3.dropWhile Char.isDigit
        if ed = [] ∨ cs4 ≠ [] then none
        else some (signed * (if eneg then 1 / 10 ^ digitsToNat ed else 10 ^ digitsToNat ed))
      else none

/-- Transformación que `parse_decimal` aplica a una cadena ya recortada:
borra todos los puntos y después cambia las comas por puntos. -/
def transformaEuropea (s : String) : String :=
  pyReplaceChar ',' '.' (pyDeleteChar '.' s)

/-- `utils.parse_decimal` (líneas 9-30 de `utils.py`).  El `ValueError`
de Python se modela con `Except.error ()`. -/
def parse_decimal : PyVal → Except Unit ℚ
  | .none => .ok 0
  | .dec q => .ok q
  | .int n => .ok n
  | .float q => .ok q
  | .str s =>
    let v := pyStrip s
    if v = "" then .ok 0
    else
      match decLit? (transformaEuropea v) with
      | some q => .ok q
      | Option.none => .error ()

/-! ## Modelo de datos comercial -/

/-- Grupo comercial (`GRUPOS_COMERCIALES = ["AAA", "AA", "A"]`). -/
inductive Grupo where
  | AAA
  | AA
  | A
deriving DecidableEq, Repr

/-- Categoría comercial (`CATEGORIAS_COMERCIALES = ["I", "II"]`). -/
inductive Categoria where
  | I
  | II
deriving DecidableEq, Repr

/-! ## `normalizador_anecop.cargar_anecop` (fase de agregación) -/

/-- Fila del origen ANECOP ya parseado (`semana`, `grupo_anecop`, `kg`,
`valor_fruta`), tal y como sale de `_from_normalized_csv` o `_from_excel`
(colaboradores externos de lectura de ficheros, fuera del núcleo). -/
structure AnecopRawRow where
  semana : Int
  grupo_anecop : String
  kg : PyVal
  valor_fruta : PyVal

/-- Fila normalizada (`semana`, `grupo`, `precio_base`). -/
structure AnecopRow where
  semana : Int
  grupo : Grupo
  precio_base : ℚ
deriving DecidableEq, Repr

/-- `normalizador_anecop._num`: `pd.isna(value) or value == "" → 0`, en otro
caso `Decimal(str(value).replace(",", "."))`.  `none` modela el
`InvalidOperation` de un valor no convertible. -/
def num_cell : PyVal → Option ℚ
  | .none => some 0
  | .str s => if s = "" then some 0 else decLit? (pyReplaceChar ',' '.' s)
  | .int n => some n
  | .float q => some q
  | .dec q => some q

/-- Errores de `cargar_anecop`. -/
inductive AnecopErr where
  | sinFilas
  | celdaInvalida
deriving DecidableEq, Repr

/-- Pareja `(kg, valor)` del diccionario `data` para un grupo ANECOP en una
semana; la comprensión de diccionario de Python conserva la última fila en
caso de clave repetida. -/
def dato (sdf : List AnecopRawRow) (g : String) : Option (PyVal × PyVal) :=
  (sdf.filter (fun r => r.grupo_anecop == g)).getLast?.map (fun r => (r.kg, r.valor_fruta))

/-- `(kg, valor)` numéricos con el valor por defecto `(0, 0)` de
`data.get(g, (Decimal("0"), Decimal("0")))`. -/
def datoNum (sdf : List AnecopRawRow) (g : String) : ℚ × ℚ :=
  match dato sdf g with
  | some kv => ((num_cell kv.1).getD 0, (num_cell kv.2).getD 0)
  | none => (0, 0)

/-- Filas de una semana (`df.groupby("semana")`). -/
def sdfDe (df : List AnecopRawRow) (w : Int) : List AnecopRawRow :=
  df.filter (fun r => r.semana == w)

/-- Precio base AAA de una semana: el `valor_fruta` del subgrado `2/3`
(sin ponderar por kg: el grupo tiene un único subgrado). -/
def precioAAAsem (df : List AnecopRawRow) (w : Int) : ℚ :=
  (datoNum (sdfDe df w) "2/3").2

/-- Kilos totales de los subgrados 4 y 5 (grupo AA) de una semana. -/
def kgAAsem (df : List AnecopRawRow) (w : Int) : ℚ :=
  (datoNum (sdfDe df w) "4").1 + (datoNum (sdfDe df w) "5").1

/-- Precio base AA de una semana: media ponderada por kg de los subgrados
4 y 5, o 0 si la suma de kg no es positiva. -/
def precioAAsem (df : List AnecopRawRow) (w : Int) : ℚ :=
  let kv4 := datoNum (sdfDe df w) "4"
  let kv5 := datoNum (sdfDe df w) "5"
  if kgAAsem df w ≤ 0 then 0 else (kv4.1 * kv4.2 + kv5.1 * kv5.2) / kgAAsem df w

/-- Kilos totales de los subgrados 6, 7/8 y 9/10 (grupo A) de una semana. -/
def kgAsem (df : List AnecopRawRow) (w : Int) : ℚ :=
  (datoNum (sdfDe df w) "6").1 + (datoNum (sdfDe df w) "7/8").1 + (datoNum (sdfDe df w) "9/10").1

/-- Precio base A de una semana: media ponderada por kg de los subgrados
6, 7/8 y 9/10, o 0 si la suma de kg no es positiva. -/
def precioAsem (df : List AnecopRawRow) (w : Int) : ℚ :=
  let kv6 := datoNum (sdfDe df w) "6"
  let kv78 := datoNum (sdfDe df w) "7/8"
  let kv910 := datoNum (sdfDe df w) "9/10"
  if kgAsem df w ≤ 0 then 0
  else (kv6.1 * kv6.2 + kv78.1 * kv78.2 + kv910.1 * kv910.2) / kgAsem df w

/-- `normalizador_anecop.cargar_anecop`, líneas 95-123: comprobación de
vacío y agregación por semana a un precio base por grupo comercial.
El grupo `AAA` toma directamente el `valor_fruta` del subgrado `2/3`;
`AA` y `A` son medias ponderadas por kg de sus subgrados, con precio 0
si la suma de kg no es positiva.  `celdaInvalida` modela el
`InvalidOperation` de `_num` sobre una celda no convertible (la
comprensión de diccionario evalúa `_num` sobre todas las filas). -/
def cargar_anecop (df : List AnecopRawRow) : Except AnecopErr (List AnecopRow) :=
  if df.isEmpty then .error .sinFilas
  else if df.any (fun r => (num_cell r.kg).isNone || (num_cell r.valor_fruta).isNone) then
    .error .celdaInvalida
  else
    .ok ((insSort intLe ((df.map (·.semana)).dedup)).flatMap (fun w =>
      [⟨w, Grupo.AAA, precioAAAsem df w⟩, ⟨w, Grupo.AA, precioAAsem df w⟩,
       ⟨w, Grupo.A, precioAsem df w⟩]))

/-! ## `correspondencia_calibres.build_calibre_mapping` -/

/-- Fila de la tabla `CorrespondenciasCalibres` (`BASE`, `KAKIS`). -/
structure CorrRow where
  base : String
  kakis : String

/-- Fila del mapping calibre → (grupo, categoría). -/
structure MapRow where
  calibre : Fin 12
  grupo : Grupo
  categoria : Categoria
deriving DecidableEq, Repr

/-- El patrón `^(AAA|AA|A)\s*(1[ªA]|2[ªA])$` (con IGNORECASE) aplicado a un
token ya pasado por `str.upper()`: de 1 a 3 letras `A`, espacios opcionales,
y `1ª`/`1A` (categoría I) o `2ª`/`2A` (categoría II).  La alternancia con
retroceso del regex equivale a tomar la racha inicial maximal de `A`. -/
def matchPatron (token : String) : Option (Grupo × Categoria) :=
  let cs := token.data
  let asRun := cs.takeWhile (fun c => c = 'A')
  let rest := (cs.dropWhile (fun c => c = 'A')).dropWhile Char.isWhitespace
  let g? : Option Grupo :=
    if asRun.length = 3 then some .AAA
    else if asRun.length = 2 then some .AA
    else if asRun.length = 1 then some .A
    else none
  match g?, rest with
  | some g, [d, m] =>
    if (d = '1' ∨ d = '2') ∧ (m = 'ª' ∨ m = 'A' ∨ m = 'a') then
      some (g, if d = '1' then .I else .II)
    else none
  | _, _ => none

/-- `by_base.get(f"c{idx}", "")`: la comprensión de diccionario de Python
conserva la última fila en caso de clave `BASE` repetida. -/
def by_base_get (normalized : List CorrRow) (key : String) : String :=
  ((((normalized.filter (fun r => r.base == key)).getLast?).map (·.kakis)).getD "")

/-- `correspondencia_calibres.build_calibre_mapping` (líneas 14-36):
normaliza `BASE` (strip+lower) y `KAKIS` (strip+upper), busca `c0..c11` y
aplica el patrón; `ValueError` (modelado con `Except.error ()`) solo si el
mapping resultante queda vacío.  (La comprobación
`grupo not in GRUPOS_COMERCIALES` de la línea 28 es inalcanzable: el patrón
solo produce AAA/AA/A.) -/
def build_calibre_mapping (corr : List CorrRow) : Except Unit (List MapRow) :=
  let normalized := corr.map (fun r => CorrRow.mk (pyLower (pyStrip r.base)) (pyUpper (pyStrip r.kakis)))
  let rows := (List.finRange 12).filterMap (fun i =>
    (matchPatron (by_base_get normalized ("c" ++ toString i.val))).map
      (fun gc => MapRow.mk i gc.1 gc.2))
  if rows.isEmpty then .error () else .ok rows

/-! ## Filas de pesos (`PesosFres` tras `extractor_sqlite.fetch_pesosfres`) -/

/-- Fila de `pesos_df`: columnas en minúscula producidas por el extractor
(`campaña`, `empresa`, `cultivo`, `idsocio`, `semana`, `boleta`,
`cal0..cal11`, `deslinea`, `desmesa`, `podrido`), ya numéricas
(`pd.to_numeric(...).fillna(0)` se modela tomando `ℚ`). -/
structure PesoRow where
  campana : Int
  empresa : Int
  cultivo : String
  idsocio : String
  semana : Int
  boleta : Int
  cal : Fin 12 → ℚ
  deslinea : ℚ
  desmesa : ℚ
  podrido : ℚ

/-- Columnas `cal0..cal11` dadas como lista (las ausentes valen 0). -/
def calCols (l : List ℚ) : Fin 12 → ℚ := fun i => l.getD i 0

/-- Un `DataFrame` de pesos: la lista de nombres de columna (para
`validar_columnas_minimas_pesosfres`, que compara nombres literales) junto
con las filas tipadas. -/
structure PesosDF where
  cols : List String
  rows : List PesoRow

/-! ## `globalgap.calcular_fondo_globalgap` -/

/-- Fila de la tabla `DEEPP` tras `fetch_deepp` (columnas en minúscula). -/
structure DeeppRow where
  boleta : Int
  idsocio : String
  certificacion : String
  nivelglobal : String
  campana : Int
  cultivo : String
  empresa : Int

/-- Fila de `MNivelGlobal` (`nivel`, `indice`). -/
structure MNivelRow where
  nivel : String
  indice : ℚ

/-- Campo al que se refiere una inconsistencia. -/
inductive CampoIncons where
  | nivelglobal
  | certificacion_norm
deriving DecidableEq, Repr

/-- Fila del DataFrame de inconsistencias de `_build_inconsistencias_df`. -/
structure InconsRow where
  idsocio : String
  campo : CampoIncons
  valores_distintos : String
deriving DecidableEq, Repr

/-- Tipo de fila de auditoría (`socio_sin_gg` o `inconsistencia_<campo>`). -/
inductive TipoAudit where
  | socio_sin_gg
  | inconsistencia_nivelglobal
  | inconsistencia_certificacion_norm
deriving DecidableEq, Repr

/-- Fila de la tabla de auditoría/excepciones devuelta por el fondo GG. -/
structure AuditRow where
  tipo : TipoAudit
  id : String
  detalle : String
deriving DecidableEq, Repr

/-- Fila de `audit_globalgap_socios_df` (socios GG considerados).  `indice`
y `fondo_soc` son `none` cuando en Python valdrían `Decimal("NaN")` (nivel
sin entrada en `MNivelGlobal`). -/
structure AuditSocioRow where
  idsocio : String
  nivelglobal : Option String
  indice : Option ℚ
  bonificacion_eur : ℚ
  kilos_comerciales : ℚ
  fondo_soc : Option ℚ
deriving DecidableEq, Repr

/-- Resultado de `calcular_fondo_globalgap`: el fondo total (`none` = NaN),
la auditoría de socios GG y la lista de excepciones. -/
structure FondoResultado where
  fondo_total : Option ℚ
  audit_socios : List AuditSocioRow
  audit : List AuditRow
deriving DecidableEq, Repr

/-- Único error fatal del fondo GG: `ValueError("NivelGlobal inconsistente
para el mismo socio")` (línea 87 de `globalgap.py`). -/
inductive GgErr where
  | nivelInconsistente
deriving DecidableEq, Repr

/-- `certificacion_norm`: `fillna("").astype(str).str.strip().str.upper()`. -/
def cert_norm (r : DeeppRow) : String := pyUpper (pyStrip r.certificacion)

/-- Columna `nivelglobal` normalizada: `fillna("").astype(str).str.strip()`. -/
def nivel_norm (r : DeeppRow) : String := pyStrip r.nivelglobal

/-- `globalgap._distinct_non_empty`: valores recortados, no vacíos, sin
repetidos y ordenados. -/
def distinct_non_empty (values : List String) : List String :=
  insSort strLe (((values.map pyStrip).filter (fun v => v ≠ "")).dedup)

/-- Socios (ya recortados) presentes en DEEPP, en el orden de clave de
`groupby` (ascendente). -/
def socios_deepp (deepp : List DeeppRow) : List String :=
  insSort strLe ((deepp.map (fun r => pyStrip r.idsocio)).dedup)

/-- `globalgap._build_inconsistencias_df` (líneas 22-38): una fila por socio
y campo con más de un valor distinto no vacío, primero los de
`nivelglobal` y después los de `certificacion_norm`. -/
def build_inconsistencias (deepp : List DeeppRow) : List InconsRow :=
  ((socios_deepp deepp).filterMap (fun s =>
    let vals := distinct_non_empty ((deepp.filter (fun r => pyStrip r.idsocio == s)).map nivel_norm)
    if 2 ≤ vals.length then
      some (InconsRow.mk s .nivelglobal (String.intercalate " | " vals))
    else none))
  ++ ((socios_deepp deepp).filterMap (fun s =>
    let vals := distinct_non_empty ((deepp.filter (fun r => pyStrip r.idsocio == s)).map cert_norm)
    if 2 ≤ vals.length then
      some (InconsRow.mk s .certificacion_norm (String.intercalate " | " vals))
    else none))

/-- Kilos comerciales de una fila de pesos: suma de `cal0..cal11`. -/
def kilos_comerciales (r : PesoRow) : ℚ :=
  ((List.finRange 12).map (fun i => r.cal i)).sum

/-- `kilos_socios_df`: kilos comerciales agregados por socio (clave
recortada, orden ascendente de `groupby`). -/
def kilos_socios (pesos : List PesoRow) : List (String × ℚ) :=
  (insSort strLe ((pesos.map (fun r => pyStrip r.idsocio)).dedup)).map (fun s =>
    (s, ((pesos.filter (fun r => pyStrip r.idsocio == s)).map kilos_comerciales).sum))

/-- DEEPP filtrado por la campaña/empresa/cultivo de la primera fila de
pesos (`iloc[0]`); sin filas de pesos no se filtra. -/
def deepp_filtrado (pesos : List PesoRow) (deepp : List DeeppRow) : List DeeppRow :=
  match pesos with
  | [] => deepp
  | r0 :: _ =>
    deepp.filter (fun d => d.campana == r0.campana && d.empresa == r0.empresa && d.cultivo == r0.cultivo)

/-- `maestro_socios`: por socio, primer `certificacion_norm` y primer
`nivelglobal` en orden de fila original (`groupby(...).agg("first")`). -/
def maestro_socios (deeppF : List DeeppRow) : List (String × String × String) :=
  (socios_deepp deeppF).map (fun s =>
    (s,
     (((deeppF.filter (fun r => pyStrip r.idsocio == s)).head?).map cert_norm).getD "",
     (((deeppF.filter (fun r => pyStrip r.idsocio == s)).head?).map nivel_norm).getD ""))

/-- El texto fijo de la fila de excepción de un socio sin GLOBAL GAP. -/
def detalleSinGG : String := "socio en pesos sin certificación GLOBAL GAP"

/-- Tipo de auditoría asociado a un campo de inconsistencia. -/
def tipoIncons : CampoIncons → TipoAudit
  | .nivelglobal => .inconsistencia_nivelglobal
  | .certificacion_norm => .inconsistencia_certificacion_norm

/-- Guardia fatal de las líneas 81-87: ¿hay inconsistencias de
`nivelglobal`? -/
def hay_nivel_inconsistente (deeppF : List DeeppRow) : Bool :=
  !((build_inconsistencias deeppF).filter (fun i => i.campo == CampoIncons.nivelglobal)).isEmpty

/-- `socios_gg`: socios del maestro con `certificacion_norm == "GLOBAL GAP"`. -/
def socios_gg_de (deeppF : List DeeppRow) : List (String × String × String) :=
  (maestro_socios deeppF).filter (fun m => m.2.1 == "GLOBAL GAP")

/-- `socios_no_gg`: `sorted(set(kilos) − set(gg))`. -/
def socios_no_gg_de (pesos : List PesoRow) (deeppF : List DeeppRow) : List String :=
  insSort strLe ((((kilos_socios pesos).map (·.1)).filter
    (fun s => ¬ ((socios_gg_de deeppF).map (·.1)).contains s)).dedup)

/-- `merged_all` (líneas 104-121): kilos por socio con nivel e índice por
joins izquierdos fila a fila (una entrada `none` donde pandas dejaría
`NaN`, duplicando filas si `MNivelGlobal` repite un nivel), bonificación y
fondo por socio. -/
def merged_all_de (pesos : List PesoRow) (deeppF : List DeeppRow)
    (mnivel : List MNivelRow) (bon_global : List ℚ) : List AuditSocioRow :=
  (kilos_socios pesos).flatMap (fun sk =>
    let nivel? := ((socios_gg_de deeppF).find? (fun m => m.1 == sk.1)).map (fun m => m.2.2)
    let bon_eur : ℚ := (bon_global.head?).getD 0
    let indices : List (Option ℚ) :=
      match nivel? with
      | none => [none]
      | some nv =>
        match (mnivel.map (fun m => (pyStrip m.nivel, m.indice))).filter (fun p => p.1 == nv) with
        | [] => [none]
        | hits => hits.map (fun p => some p.2)
    indices.map (fun ind =>
      AuditSocioRow.mk sk.1 nivel? ind bon_eur sk.2 (ind.map (fun iv => sk.2 * bon_eur * iv))))

/-- Resultado del fondo GG cuando la guardia no salta (líneas 89-152). -/
def fondoResultadoDe (pesos : List PesoRow) (deepp : List DeeppRow)
    (mnivel : List MNivelRow) (bon_global : List ℚ) : FondoResultado :=
  let deeppF := deepp_filtrado pesos deepp
  let merged := (merged_all_de pesos deeppF mnivel bon_global).filter
    (fun m => ((socios_gg_de deeppF).map (·.1)).contains m.idsocio)
  let fondo_total : Option ℚ :=
    if merged.all (fun m => m.fondo_soc.isSome) then
      some ((merged.map (fun m => (m.fondo_soc).getD 0)).sum)
    else none
  let audit : List AuditRow :=
    ((socios_no_gg_de pesos deeppF).map (fun s => AuditRow.mk .socio_sin_gg s detalleSinGG))
    ++ ((build_inconsistencias deeppF).map
        (fun i => AuditRow.mk (tipoIncons i.campo) i.idsocio i.valores_distintos))
  FondoResultado.mk fondo_total merged audit

/-- `globalgap.calcular_fondo_globalgap` (líneas 41-152).  Devuelve
`(fondo_total, audit_globalgap_socios_df, audit_df)`; el único error fatal
es el `ValueError` por `nivelglobal` inconsistente (línea 87). -/
def calcular_fondo_globalgap (pesos : List PesoRow) (deepp : List DeeppRow)
    (mnivel : List MNivelRow) (bon_global : List ℚ) : Except GgErr FondoResultado :=
  if hay_nivel_inconsistente (deepp_filtrado pesos deepp) then .error .nivelInconsistente
  else .ok (fondoResultadoDe pesos deepp mnivel bon_global)

/-! ## `calculador.calcular_modelo_final` y `validaciones` -/

/-- Errores fatales del cálculo final.  Cada constructor corresponde a un
punto de aborto del código:

* `faltanColumnas` — `ValidationError` de `validar_columnas_minimas_pesosfres`;
* `calibreDuplicado` — `MergeError` del `validate="m:1"` del merge con el
  mapping de calibres (línea 46);
* `semanasSinAnecop` — `ValidationError` de `validar_semanas_kilos_vs_anecop`;
* `sinSemanaRef` — `ValueError` de la línea 94;
* `refSinFila` — `IndexError` del `.iloc[0]` de la línea 96;
* `referenciaNoPositiva` — `ValidationError` de `validar_referencia`;
* `anecopDuplicado` — `MergeError` del `validate="m:1"` del merge de kilos
  con `rel_df` (línea 116);
* `relNoNumerico` — el `InvalidOperation` que el `Decimal("NaN")` de un
  `rel_final` ausente provoca al compararse en `validar_total_rel`;
* `totalRelNoPositivo` — `ValidationError` de `validar_total_rel`;
* `descuadre` — `ValidationError` de `validar_cuadre`;
* `semanasSinRelCompleta` — `ValueError` de la línea 196. -/
inductive Err where
  | faltanColumnas
  | calibreDuplicado
  | semanasSinAnecop
  | sinSemanaRef
  | refSinFila
  | referenciaNoPositiva
  | anecopDuplicado
  | relNoNumerico
  | totalRelNoPositivo
  | descuadre
  | semanasSinRelCompleta
deriving DecidableEq, Repr

/-- Columnas requeridas por `validar_columnas_minimas_pesosfres` (nombres
literales, con mayúsculas, de `validaciones.py` líneas 15-28). -/
def columnasMinimas : List String :=
  ["Apodo", "semana", "Boleta", "Cal0", "Cal1", "Cal2", "Cal6", "Cal7", "Cal8",
   "DesLinea", "DesMesa", "Podrido"]

/-- `validaciones.validar_columnas_minimas_pesosfres`. -/
def validar_columnas_minimas_pesosfres (cols : List String) : Except Err Unit :=
  if columnasMinimas.all (fun c => cols.contains c) then .ok () else .error .faltanColumnas

/-- `validaciones.validar_semanas_kilos_vs_anecop`: falla si alguna semana
con kilos no está en ANECOP. -/
def validar_semanas_kilos_vs_anecop (kilosSem anecopSem : List Int) : Except Err Unit :=
  if (kilosSem.filter (fun s => ¬ anecopSem.contains s)).isEmpty then .ok ()
  else .error .semanasSinAnecop

/-- `validaciones.validar_referencia`: falla si el precio AAA de la semana
de referencia no es positivo. -/
def validar_referencia (ref : ℚ) : Except Err Unit :=
  if ref ≤ 0 then .error .referenciaNoPositiva else .ok ()

/-- `validaciones.validar_total_rel`: falla si la base relativa no es
positiva. -/
def validar_total_rel (total_rel : ℚ) : Except Err Unit :=
  if total_rel ≤ 0 then .error .totalRelNoPositivo else .ok ()

/-- `validaciones.validar_cuadre`: devuelve el descuadre `|recon − objetivo|`
o falla si supera la tolerancia (por defecto `Decimal("0.01")`). -/
def validar_cuadre (recon objetivo tolerancia : ℚ) : Except Err ℚ :=
  if tolerancia < |recon - objetivo| then .error .descuadre else .ok |recon - objetivo|

/-- Fila de `kilos_group`: kilos por (semana, grupo, categoría). -/
structure KiloRow where
  semana : Int
  grupo : Grupo
  categoria : Categoria
  kilos : ℚ
deriving DecidableEq, Repr

/-- Clave `calibre` duplicada en el mapping (dispararía el `MergeError` del
`validate="m:1"` de la línea 46). -/
def calibres_dup (cmap : List MapRow) : Bool :=
  ((cmap.map (·.calibre)).dedup).length ≠ (cmap.map (·.calibre)).length

/-- Kilos totales de una clave (semana, grupo, categoría): suma, sobre el
`melt` de `cal0..cal11` cruzado (inner) con el mapping, de los kilos de las
filas con esa semana y de los calibres mapeados a ese grupo y categoría. -/
def kilosAt (rows : List PesoRow) (cmap : List MapRow) (s : Int) (g : Grupo) (c : Categoria) : ℚ :=
  (rows.map (fun r =>
    if r.semana = s then
      ((cmap.filter (fun mr => decide (mr.grupo = g ∧ mr.categoria = c))).map
        (fun mr => r.cal mr.calibre)).sum
    else 0)).sum

/-- `kilos_group` (líneas 44-49): agregado por (semana, grupo, categoría)
filtrado a kilos estrictamente positivos.  El orden de filas difiere del de
pandas (que ordena por clave); ningún resultado depende de ese orden. -/
def kilos_group (rows : List PesoRow) (cmap : List MapRow) : List KiloRow :=
  ((rows.map (·.semana)).dedup).flatMap (fun s =>
    [Grupo.AAA, Grupo.AA, Grupo.A].flatMap (fun g =>
      [Categoria.I, Categoria.II].filterMap (fun c =>
        if 0 < kilosAt rows cmap s g c then
          some (KiloRow.mk s g c (kilosAt rows cmap s g c))
        else none)))

/-- Semanas (sin repetir) presentes en una tabla de kilos agrupados. -/
def semanasDe (kg : List KiloRow) : List Int := (kg.map (·.semana)).dedup

/-- Semanas (sin repetir) presentes en ANECOP. -/
def semanas_anecop (anecop : List AnecopRow) : List Int := (anecop.map (·.semana)).dedup

/-- `semana_ref`: primera semana de ANECOP (en orden ascendente) que
también tiene kilos comerciales; `none` reproduce el `ValueError` de la
línea 94. -/
def semana_ref? (anecopSem kilosSem : List Int) : Option Int :=
  (insSort intLe anecopSem).find? (fun s => kilosSem.contains s)

/-- `ref`: `precio_base` de la primera fila ANECOP con la semana de
referencia y grupo AAA (`.iloc[0]`, línea 96). -/
def precio_ref? (anecop : List AnecopRow) (sref : Int) : Option ℚ :=
  (anecop.find? (fun r => decide (r.semana = sref ∧ r.grupo = Grupo.AAA))).map (·.precio_base)

/-- Fila de `rel_df`: factor relativo por (semana, grupo, categoría). -/
structure RelRow where
  semana : Int
  grupo : Grupo
  categoria : Categoria
  rel_final : ℚ
deriving DecidableEq, Repr

/-- `rel_df` (líneas 99-112): por cada fila ANECOP, el factor relativo
`rel = q4(precio_base / ref)` para la categoría I y `q4(rel * ratio)` para
la categoría II. -/
def rel_df (anecop : List AnecopRow) (ref ratio : ℚ) : List RelRow :=
  anecop.flatMap (fun r =>
    let rel := q4 (r.precio_base / ref)
    [RelRow.mk r.semana r.grupo .I rel, RelRow.mk r.semana r.grupo .II (q4 (rel * ratio))])

/-- Clave (semana, grupo) duplicada en ANECOP: dispararía el `MergeError`
del `validate="m:1"` de la línea 116 (y el `pivot` posterior). -/
def rel_keys_dup (anecop : List AnecopRow) : Bool :=
  ((anecop.map (fun r => (r.semana, r.grupo))).dedup).length ≠ anecop.length

/-- Búsqueda del factor relativo de una clave en `rel_df` (primera fila
coincidente; con claves sin duplicar es única). -/
def rel_lookup (rdf : List RelRow) (s : Int) (g : Grupo) (c : Categoria) : Option ℚ :=
  (rdf.find? (fun r => decide (r.semana = s ∧ r.grupo = g ∧ r.categoria = c))).map (·.rel_final)

/-- `merged` (línea 116): cada fila de kilos con su factor relativo; `none`
si a alguna fila le falta el factor (en Python quedaría `NaN` y la
ejecución abortaría con `InvalidOperation` en `validar_total_rel`). -/
def merged? (kg : List KiloRow) (rdf : List RelRow) : Option (List (KiloRow × ℚ)) :=
  kg.mapM (fun k => (rel_lookup rdf k.semana k.grupo k.categoria).map (fun rel => (k, rel)))

/-- Categorías de destrío (`DESTRIOS = ["deslinea", "desmesa", "podrido"]`). -/
inductive Destrio where
  | deslinea
  | desmesa
  | podrido
deriving DecidableEq, Repr

/-- Kilos de una categoría de destrío en una fila de pesos. -/
def destrio_kg (r : PesoRow) : Destrio → ℚ
  | .deslinea => r.deslinea
  | .desmesa => r.desmesa
  | .podrido => r.podrido

/-- `importe_destrios` (líneas 127-132): suma de `q4(kilos × precio)` sobre
el `melt` de las tres columnas de destrío. -/
def importe_destrios (rows : List PesoRow) (precios_destrio : Destrio → ℚ) : ℚ :=
  ([Destrio.deslinea, Destrio.desmesa, Destrio.podrido].flatMap (fun d =>
    rows.map (fun r => q4 (destrio_kg r d * precios_destrio d)))).sum

/-- Fila de `precios_df`: la columna `calibre` del código contiene el grupo
comercial. -/
structure PrecioRow where
  semana : Int
  calibre : Grupo
  categoria : Categoria
  precio_final : ℚ
deriving DecidableEq, Repr

/-- Fila de `resumen_df` (tabla por semana). -/
structure ResumenRow where
  semana : Int
  total_kg_comercial_sem : ℚ
  precio_aaa_i : ℚ
  precio_aa_i : ℚ
  precio_a_i : ℚ
  coef_global : ℚ
  ref_semana : Int
deriving DecidableEq, Repr

/-- `resumen_metricas` (líneas 203-214). -/
structure Metricas where
  total_kg_comerciales : ℚ
  ingreso_destrios_total : ℚ
  fondo_gg_total : ℚ
  neto_obj : ℚ
  total_rel : ℚ
  coef : ℚ
  num_semanas_con_kilos : Nat
  descuadre : ℚ
  recon : ℚ
  semana_ref : Int
deriving DecidableEq, Repr

/-- `ResultadoCalculo`. -/
structure Resultado where
  precios_df : List PrecioRow
  resumen_df : List ResumenRow
  resumen_metricas : Metricas
deriving DecidableEq, Repr

/-- Posición alfabética de las etiquetas "A" < "AA" < "AAA" usada por
`sort_values` sobre la columna `calibre`. -/
def grupoKey : Grupo → Nat
  | .A => 0
  | .AA => 1
  | .AAA => 2

/-- Posición alfabética de "I" < "II". -/
def catKey : Categoria → Nat
  | .I => 0
  | .II => 1

/-- Orden de `precios_df.sort_values(["semana", "calibre", "categoria"])`. -/
def precioLe (x y : PrecioRow) : Bool :=
  decide (x.semana < y.semana ∨ (x.semana = y.semana ∧
    (grupoKey x.calibre < grupoKey y.calibre ∨ (grupoKey x.calibre = grupoKey y.calibre ∧
      catKey x.categoria ≤ catKey y.categoria))))

/-- Semanas con kilos cuyo pivote de ANECOP deja algún grupo sin factor
relativo (`missing_rel_weeks`, línea 194), en orden ascendente. -/
def semanas_sin_rel (kg : List KiloRow) (anecop : List AnecopRow) : List Int :=
  insSort intLe ((semanasDe kg).filter (fun s =>
    ¬ ([Grupo.AAA, Grupo.AA, Grupo.A].all (fun g =>
      anecop.any (fun r => decide (r.semana = s ∧ r.grupo = g))))))

/-- `base_relativa` (línea 136): suma de `rel_kilos = q4(kilos × rel)`. -/
def base_relativa (merged : List (KiloRow × ℚ)) : ℚ :=
  (merged.map (fun mr => q4 (mr.1.kilos * mr.2))).sum

/-- `neto_comercial` (línea 134). -/
def neto_comercial (bruto fondo otros imp : ℚ) : ℚ :=
  q4 (bruto - fondo - otros - imp)

/-- `recon` (línea 165): suma de `kilos × precio_final` (con
`precio_final = rel × coef`) más el importe de destríos. -/
def recon_de (merged : List (KiloRow × ℚ)) (coef imp : ℚ) : ℚ :=
  (merged.map (fun mr => mr.1.kilos * (mr.2 * coef))).sum + imp

/-- El valor devuelto por `calcular_modelo_final` cuando todas las
validaciones pasan (líneas 146-215): `precios_df` ordenado, `resumen_df`
por semana y `resumen_metricas`. -/
def resultadoDe (kg : List KiloRow) (imp : ℚ) (anecop : List AnecopRow)
    (bruto otros fondo ratio : ℚ) (sref : Int) (ref : ℚ)
    (merged : List (KiloRow × ℚ)) : Resultado :=
  let neto := neto_comercial bruto fondo otros imp
  let base := base_relativa merged
  let coef := neto / base
  let rdf := rel_df anecop ref ratio
  let precios := insSort precioLe
    (rdf.map (fun r => PrecioRow.mk r.semana r.grupo r.categoria (r.rel_final * coef)))
  let recon := recon_de merged coef imp
  let objetivo := bruto - fondo - otros
  let resumen := (insSort intLe (semanasDe kg)).map (fun s =>
    ResumenRow.mk s
      (((kg.filter (fun k => k.semana == s)).map (·.kilos)).sum)
      ((rel_lookup rdf s .AAA .I).getD 0 * coef)
      ((rel_lookup rdf s .AA .I).getD 0 * coef)
      ((rel_lookup rdf s .A .I).getD 0 * coef)
      coef sref)
  Resultado.mk precios resumen
    (Metricas.mk ((kg.map (·.kilos)).sum) imp fondo neto base coef
      ((semanasDe kg).length) |recon - objetivo| recon sref)

/-- Núcleo de `calcular_modelo_final` una vez materializados `kilos_group`
(`kg`) e `importe_destrios` (`imp`), las dos únicas vistas de `pesos_df`
que usa el resto del cálculo.  Sigue el orden de abortos del código
(líneas 42-196 de `calculador.py`). -/
def calcularCore (cols : List String) (cmap : List MapRow) (kg : List KiloRow) (imp : ℚ)
    (anecop : List AnecopRow) (bruto otros fondo ratio : ℚ) : Except Err Resultado :=
  match validar_columnas_minimas_pesosfres cols with
  | .error e => .error e
  | .ok _ =>
  if calibres_dup cmap then .error .calibreDuplicado
  else
  match validar_semanas_kilos_vs_anecop (semanasDe kg) (semanas_anecop anecop) with
  | .error e => .error e
  | .ok _ =>
  match semana_ref? (semanas_anecop anecop) (semanasDe kg) with
  | none => .error .sinSemanaRef
  | some sref =>
  match precio_ref? anecop sref with
  | none => .error .refSinFila
  | some ref =>
  match validar_referencia ref with
  | .error e => .error e
  | .ok _ =>
  if rel_keys_dup anecop then .error .anecopDuplicado
  else
  match merged? kg (rel_df anecop ref ratio) with
  | none => .error .relNoNumerico
  | some merged =>
  match validar_total_rel (base_relativa merged) with
  | .error e => .error e
  | .ok _ =>
  match validar_cuadre
      (recon_de merged (neto_comercial bruto fondo otros imp / base_relativa merged) imp)
      (bruto - fondo - otros) (1/100) with
  | .error e => .error e
  | .ok _ =>
  if ¬ (semanas_sin_rel kg anecop).isEmpty then .error .semanasSinRelCompleta
  else .ok (resultadoDe kg imp anecop bruto otros fondo ratio sref ref merged)

/-- `calculador.calcular_modelo_final` (líneas 32-215): `pesos_df` entra en
el cálculo únicamente a través de sus columnas, de `kilos_group` y de
`importe_destrios`. -/
def calcular_modelo_final (pesos : PesosDF) (cmap : List MapRow) (anecop : List AnecopRow)
    (precios_destrio : Destrio → ℚ) (bruto otros fondo ratio : ℚ) : Except Err Resultado :=
  calcularCore pesos.cols cmap (kilos_group pesos.rows cmap)
    (importe_destrios pesos.rows precios_destrio) anecop bruto otros fondo ratio

/-! ## Accesores para enunciados sobre resultados concretos -/

/-- ¿Terminó el cálculo sin error fatal? -/
def esOk : Except Err Resultado → Bool
  | .ok _ => true
  | .error _ => false

/-- `precios_df` de un resultado (lista vacía si hubo error). -/
def precios_of : Except Err Resultado → List PrecioRow
  | .ok r => r.precios_df
  | .error _ => []

/-- `resumen_metricas` de un resultado. -/
def metricas_of : Except Err Resultado → Option Metricas
  | .ok r => some r.resumen_metricas
  | .error _ => none

/-- Fondo total devuelto por `calcular_fondo_globalgap` (`none` si hubo
error fatal o si el total sería `NaN`). -/
def fondo_of : Except GgErr FondoResultado → Option ℚ
  | .ok r => r.fondo_total
  | .error _ => none

/-- Tabla de excepciones devuelta por `calcular_fondo_globalgap`. -/
def audit_of : Except GgErr FondoResultado → List AuditRow
  | .ok r => r.audit
  | .error _ => []

/-- Auditoría de socios GG devuelta por `calcular_fondo_globalgap`. -/
def audit_socios_of : Except GgErr FondoResultado → List AuditSocioRow
  | .ok r => r.audit_socios
  | .error _ => []

/-! ## Escenario mínimo del fixture (§8 de la especificación) -/

/-- Columnas del `pesos_df` del escenario (con las mínimas requeridas). -/
def fixCols : List String :=
  ["Apodo", "semana", "Boleta", "Cal0", "Cal1", "Cal2", "Cal6", "Cal7", "Cal8",
   "DesLinea", "DesMesa", "Podrido", "boleta", "cal0", "cal1", "idsocio",
   "deslinea", "desmesa", "podrido"]

/-- Mapping del escenario: `cal0 → (AAA, I)`, `cal1 → (AAA, II)`. -/
def fixMap : List MapRow := [MapRow.mk 0 .AAA .I, MapRow.mk 1 .AAA .II]

/-- Socio A: 10 kg en el calibre AAA de categoría I y 1 kg en cada uno de
los tres destríos; certificado GLOBAL GAP con nivel N1. -/
def fixRowA : PesoRow :=
  PesoRow.mk 2025 1 "KAKIS" "A" 1 1 (calCols [10]) 1 1 1

/-- Socio B: 20 kg en el calibre AAA de categoría II, sin certificación. -/
def fixRowB : PesoRow :=
  PesoRow.mk 2025 1 "KAKIS" "B" 1 2 (calCols [0, 20]) 0 0 0

/-- Pesos del escenario. -/
def fixPesos : PesosDF := PesosDF.mk fixCols [fixRowA, fixRowB]

/-- Precios de referencia de la semana 1: AAA 2.0, AA 1.0, A 0.5. -/
def fixAnecop : List AnecopRow :=
  [AnecopRow.mk 1 .AAA 2, AnecopRow.mk 1 .AA 1, AnecopRow.mk 1 .A (1/2)]

/-- Certificación del escenario: solo el socio A, nivel N1. -/
def fixDeepp : List DeeppRow := [DeeppRow.mk 1 "A" "Global Gap" "N1" 2025 "KAKIS" 1]

/-- Índices de calidad: N1 → 1. -/
def fixMNivel : List MNivelRow := [MNivelRow.mk "N1" 1]

/-- Bonificación GLOBAL GAP: 0.1 €/kg. -/
def fixBon : List ℚ := [1/10]

/-- Precios de destrío nulos. -/
def fixPreciosDestrio : Destrio → ℚ := fun _ => 0

/-- Resultado completo del escenario mínimo con `bruto = 100`,
`otros = 0`, `fondo = 1`, `ratio = 1/2` (los precios 99/20 y 99/40 son
4.95 y 2.475). -/
def fixResultado : Resultado :=
  Resultado.mk
    [PrecioRow.mk 1 .A .I (99/80), PrecioRow.mk 1 .A .II (99/160),
     PrecioRow.mk 1 .AA .I (99/40), PrecioRow.mk 1 .AA .II (99/80),
     PrecioRow.mk 1 .AAA .I (99/20), PrecioRow.mk 1 .AAA .II (99/40)]
    [ResumenRow.mk 1 30 (99/20) (99/40) (99/80) (99/20) 1]
    (Metricas.mk 30 0 1 99 20 (99/20) 1 0 99 1)

/-- Resultado completo de la ejecución con 16 kg en AAA/I y bruto 1
(`coef = 1/16`). -/
def cexResultadoPrecision : Resultado :=
  Resultado.mk
    [PrecioRow.mk 1 .A .I (1/64), PrecioRow.mk 1 .A .II (1/128),
     PrecioRow.mk 1 .AA .I (1/32), PrecioRow.mk 1 .AA .II (1/64),
     PrecioRow.mk 1 .AAA .I (1/16), PrecioRow.mk 1 .AAA .II (1/32)]
    [ResumenRow.mk 1 16 (1/16) (1/32) (1/64) (1/16) 1]
    (Metricas.mk 16 0 0 1 16 (1/16) 1 0 1 1)

/-! ## Entradas concretas para los contraejemplos y testigos -/

/-- Correspondencias que dejan `cal5` sin mapping (`"XX"` no casa con el
patrón) y mapean `c0 → AAA 1ª`, `c1 → aaa 2a`. -/
def cexCorr : List CorrRow :=
  [CorrRow.mk "C0" "AAA 1ª", CorrRow.mk " c1 " "aaa 2a", CorrRow.mk "c5" "XX"]

/-- Socio A con 10 kg en `cal0` (mapeado) y 7 kg en `cal5` (sin mapping). -/
def cexRowCal5 : PesoRow :=
  PesoRow.mk 2025 1 "KAKIS" "A" 1 1 (calCols [10, 0, 0, 0, 0, 7]) 0 0 0

/-- Variante de `cexRowCal5` con 99 kg en el calibre sin mapping. -/
def cexRowCal5b : PesoRow :=
  PesoRow.mk 2025 1 "KAKIS" "A" 1 1 (calCols [10, 0, 0, 0, 0, 99]) 0 0 0

/-- Socio B con 20 kg en `cal1`. -/
def cexRowCal1 : PesoRow :=
  PesoRow.mk 2025 1 "KAKIS" "B" 1 2 (calCols [0, 20]) 0 0 0

/-- Pesos con kilos positivos en un calibre sin fila de mapping. -/
def cexPesosSinMapear : PesosDF := PesosDF.mk fixCols [cexRowCal5, cexRowCal1]

/-- DEEPP con dos niveles distintos no vacíos para el mismo socio. -/
def cexDeeppConflicto : List DeeppRow :=
  [DeeppRow.mk 1 "A" "Global Gap" "N1" 2025 "KAKIS" 1,
   DeeppRow.mk 2 "A" "Global Gap" "N2" 2025 "KAKIS" 1]

/-- Pesos con 10 kg en el calibre AAA/I de la semana 1. -/
def cexPesosOrden : PesosDF :=
  PesosDF.mk fixCols [PesoRow.mk 2025 1 "KAKIS" "A" 1 1 (calCols [10]) 0 0 0]

/-- Pesos con 16 kg en el calibre AAA/I (para que `coef = 1/16` produzca un
precio con más de 4 decimales). -/
def cexPesosPrecision : PesosDF :=
  PesosDF.mk fixCols [PesoRow.mk 2025 1 "KAKIS" "A" 1 1 (calCols [16]) 0 0 0]

/-- Mapping que envía `cal0` al grupo AA, categoría I. -/
def cexMapAA : List MapRow := [MapRow.mk 0 .AA .I]

/-- ANECOP con precio AA negativo (la base relativa sale negativa). -/
def cexAnecopNegativo : List AnecopRow :=
  [AnecopRow.mk 1 .AAA 1, AnecopRow.mk 1 .AA (-1), AnecopRow.mk 1 .A 0]

/-- Pesos cuya única semana con kilos es la 2. -/
def cexPesosSem2 : PesosDF :=
  PesosDF.mk fixCols [PesoRow.mk 2025 1 "KAKIS" "A" 2 1 (calCols [10]) 0 0 0]

/-- ANECOP con semanas 1 y 2 y precio AAA nulo en la semana 2. -/
def cexAnecopRefCero : List AnecopRow :=
  [AnecopRow.mk 1 .AAA 2, AnecopRow.mk 1 .AA 1, AnecopRow.mk 1 .A 1,
   AnecopRow.mk 2 .AAA 0, AnecopRow.mk 2 .AA 1, AnecopRow.mk 2 .A 1]

/-- Origen ANECOP crudo con dos subgrados del grupo AA en la semana 1
(10 kg a 2.0 y 30 kg a 1.0; media ponderada 1.25). -/
def cexAnecopRaw : List AnecopRawRow :=
  [⟨1, "4", .int 10, .float 2⟩, ⟨1, "5", .int 30, .float 1⟩]

/-- Dos filas de pesos que coinciden en todo salvo, quizá, en la columna
`cal c`. -/
def AgreeSalvoCal (c : Fin 12) (r r' : PesoRow) : Prop :=
  r.campana = r'.campana ∧ r.empresa = r'.empresa ∧ r.cultivo = r'.cultivo ∧
  r.idsocio = r'.idsocio ∧ r.semana = r'.semana ∧ r.boleta = r'.boleta ∧
  r.deslinea = r'.deslinea ∧ r.desmesa = r'.desmesa ∧ r.podrido = r'.podrido ∧
  ∀ i : Fin 12, i ≠ c → r.cal i = r'.cal i

/-! # Lemas de infraestructura -/

theorem insSorted_perm (le : α → α → Bool) (a : α) (l : List α) :
    (insSorted le a l).Perm (a :: l) := by
  induction l with
  | nil => simp [insSorted]
  | cons b t ih =>
    simp only [insSorted]
    split
    · exact List.Perm.refl _
    · exact (List.Perm.cons b ih).trans (List.Perm.swap a b t)

theorem insSort_perm (le : α → α → Bool) (l : List α) : (insSort le l).Perm l := by
  induction l with
  | nil => simp [insSort]
  | cons a t ih => exact (insSorted_perm le a (insSort le t)).trans (List.Perm.cons a ih)

theorem mem_insSort (le : α → α → Bool) {l : List α} {x : α} :
    x ∈ insSort le l ↔ x ∈ l :=
  (insSort_perm le l).mem_iff

theorem insSorted_sorted_int (a : Int) {l : List Int} (h : l.Pairwise (· ≤ ·)) :
    (insSorted intLe a l).Pairwise (· ≤ ·) := by
  induction l with
  | nil => simp [insSorted]
  | cons b t ih =>
    rcases List.pairwise_cons.mp h with ⟨hb, ht⟩
    simp only [insSorted]
    split_ifs with hab
    · simp only [intLe, decide_eq_true_eq] at hab
      refine List.pairwise_cons.mpr ⟨?_, h⟩
      intro y hy
      rcases List.mem_cons.mp hy with rfl | hyt
      · exact hab
      · exact le_trans hab (hb y hyt)
    · simp only [intLe, decide_eq_true_eq] at hab
      refine List.pairwise_cons.mpr ⟨?_, ih ht⟩
      intro y hy
      rcases List.mem_cons.mp ((insSorted_perm intLe a t).mem_iff.mp hy) with rfl | hyt
      · exact le_of_lt (lt_of_not_le hab)
      · exact hb y hyt

theorem insSort_sorted_int (l : List Int) : (insSort intLe l).Pairwise (· ≤ ·) := by
  induction l with
  | nil => simp [insSort]
  | cons a t ih => exact insSorted_sorted_int a ih

theorem find?_min_of_sorted {l : List Int} (hs : l.Pairwise (· ≤ ·)) {p : Int → Bool} {x : Int}
    (h : l.find? p = some x) : p x = true ∧ x ∈ l ∧ ∀ y ∈ l, p y = true → x ≤ y := by
  induction l with
  | nil => simp at h
  | cons a t ih =>
    rcases List.pairwise_cons.mp hs with ⟨ha, ht⟩
    by_cases hpa : p a = true
    · rw [List.find?_cons_of_pos _ hpa] at h
      injection h with h
      subst h
      refine ⟨hpa, List.mem_cons_self _ _, ?_⟩
      intro y hy _
      rcases List.mem_cons.mp hy with rfl | hyt
      · exact le_refl _
      · exact ha y hyt
    · rw [List.find?_cons_of_neg _ hpa] at h
      rcases ih ht h with ⟨h1, h2, h3⟩
      refine ⟨h1, List.mem_cons_of_mem _ h2, ?_⟩
      intro y hy hpy
      rcases List.mem_cons.mp hy with rfl | hyt
      · exact absurd hpy hpa
      · exact h3 y hyt hpy

theorem map_congr_forall₂ {α β γ : Type _} {R : α → β → Prop} {f : α → γ} {g : β → γ}
    {l : List α} {l' : List β} (h : List.Forall₂ R l l')
    (hfg : ∀ a b, R a b → f a = g b) : l.map f = l'.map g := by
  induction h with
  | nil => rfl
  | cons hab _ ih => simp [hfg _ _ hab, ih]

theorem validar_referencia_ok {ref : ℚ} {v : Unit} (h : validar_referencia ref = .ok v) :
    0 < ref := by
  by_contra hle
  simp [validar_referencia, le_of_not_lt hle] at h

theorem validar_total_rel_ok {t : ℚ} {v : Unit} (h : validar_total_rel t = .ok v) : 0 < t := by
  by_contra hle
  simp [validar_total_rel, le_of_not_lt hle] at h

theorem validar_cuadre_ok {recon obj tol d : ℚ} (h : validar_cuadre recon obj tol = .ok d) :
    |recon - obj| ≤ tol ∧ d = |recon - obj| := by
  by_cases hlt : tol < |recon - obj|
  · simp [validar_cuadre, hlt] at h
  · refine ⟨le_of_not_lt hlt, ?_⟩
    simp only [validar_cuadre, if_neg hlt] at h
    injection h with h
    exact h.symm

theorem validar_cuadre_eq_error {recon obj tol : ℚ} (h : tol < |recon - obj|) :
    validar_cuadre recon obj tol = .error .descuadre := by
  simp [validar_cuadre, h]

/-- Inversión: si `calcularCore` devuelve `ok r`, todas las validaciones
pasaron y `r` es exactamente el resultado construido por `resultadoDe`. -/
theorem calcularCore_ok_inv {cols : List String} {cmap : List MapRow} {kg : List KiloRow}
    {imp : ℚ} {anecop : List AnecopRow} {bruto otros fondo ratio : ℚ} {r : Resultado}
    (h : calcularCore cols cmap kg imp anecop bruto otros fondo ratio = .ok r) :
    validar_columnas_minimas_pesosfres cols = .ok () ∧
    calibres_dup cmap = false ∧
    validar_semanas_kilos_vs_anecop (semanasDe kg) (semanas_anecop anecop) = .ok () ∧
    rel_keys_dup anecop = false ∧
    (semanas_sin_rel kg anecop).isEmpty = true ∧
    ∃ sref ref merged,
      semana_ref? (semanas_anecop anecop) (semanasDe kg) = some sref ∧
      precio_ref? anecop sref = some ref ∧
      0 < ref ∧
      merged? kg (rel_df anecop ref ratio) = some merged ∧
      0 < base_relativa merged ∧
      |recon_de merged (neto_comercial bruto fondo otros imp / base_relativa merged) imp -
          (bruto - fondo - otros)| ≤ 1/100 ∧
      r = resultadoDe kg imp anecop bruto otros fondo ratio sref ref merged := by
  unfold calcularCore at h
  split at h
  · exact Except.noConfusion h
  case _ v hcols =>
  split at h
  · exact Except.noConfusion h
  case _ hdup =>
  split at h
  · exact Except.noConfusion h
  case _ v2 hsem =>
  split at h
  · exact Except.noConfusion h
  case _ sref hsref =>
  split at h
  · exact Except.noConfusion h
  case _ ref href =>
  split at h
  · exact Except.noConfusion h
  case _ v3 hrefok =>
  split at h
  · exact Except.noConfusion h
  case _ hkeys =>
  split at h
  · exact Except.noConfusion h
  case _ merged hmer =>
  split at h
  · exact Except.noConfusion h
  case _ v4 hbase =>
  split at h
  · exact Except.noConfusion h
  case _ d hcuadre =>
  split at h
  · exact Except.noConfusion h
  case _ hsinrel =>
  injection h with h
  refine ⟨hcols, eq_false_of_ne_true hdup, hsem, eq_false_of_ne_true hkeys, ?_,
    sref, ref, merged, hsref, href, validar_referencia_ok hrefok, hmer,
    validar_total_rel_ok hbase, (validar_cuadre_ok hcuadre).1, h.symm⟩
  simpa using hsinrel

/-- Construcción: si todas las validaciones pasan, `calcularCore` devuelve
exactamente `resultadoDe`. -/
theorem calcularCore_eq_ok {cols : List String} {cmap : List MapRow} {kg : List KiloRow}
    {imp : ℚ} {anecop : List AnecopRow} {bruto otros fondo ratio : ℚ}
    {sref : Int} {ref : ℚ} {merged : List (KiloRow × ℚ)}
    (h1 : validar_columnas_minimas_pesosfres cols = .ok ())
    (h2 : calibres_dup cmap = false)
    (h3 : validar_semanas_kilos_vs_anecop (semanasDe kg) (semanas_anecop anecop) = .ok ())
    (h4 : semana_ref? (semanas_anecop anecop) (semanasDe kg) = some sref)
    (h5 : precio_ref? anecop sref = some ref)
    (h6 : 0 < ref)
    (h7 : rel_keys_dup anecop = false)
    (h8 : merged? kg (rel_df anecop ref ratio) = some merged)
    (h9 : 0 < base_relativa merged)
    (h10 : |recon_de merged (neto_comercial bruto fondo otros imp / base_relativa merged) imp -
        (bruto - fondo - otros)| ≤ 1/100)
    (h11 : (semanas_sin_rel kg anecop).isEmpty = true) :
    calcularCore cols cmap kg imp anecop bruto otros fondo ratio =
      .ok (resultadoDe kg imp anecop bruto otros fondo ratio sref ref merged) := by
  unfold calcularCore
  simp only [h1, h2, h3, h4, h5, h7, h8, h11, Bool.false_eq_true, if_false,
    validar_referencia, if_neg (not_le.mpr h6),
    validar_total_rel, if_neg (not_le.mpr h9),
    validar_cuadre, if_neg (not_lt.mpr h10), Bool.not_true, not_false_eq_true,
    ite_false, ite_true, not_true]

/-! # Reivindicaciones -/

/-- C5: en el escenario mínimo de la especificación (semana 1; socio A con
10 kg en el calibre AAA/I, 1 kg en cada destrío, certificado N1 con índice
1 y bonificación 0.1 €/kg; socio B con 20 kg en AAA/II sin certificar;
precios de referencia 2.0/1.0/0.5; bruto 100, sin otros fondos, destríos a
0, ratio 0.5) el fondo GG total es 1.0 contando solo al socio A, B aparece
en la lista de excepciones, el coeficiente es 99/20 = 4.95, los precios
finales son 99/20 = 4.95 (categoría I) y 99/40 = 2.475 (categoría II), y la
reconciliación da recon = 99.0 con descuadre = 0. -/
theorem c5_escenario_minimo :
    fondo_of (calcular_fondo_globalgap fixPesos.rows fixDeepp fixMNivel fixBon) = some 1
  ∧ audit_socios_of (calcular_fondo_globalgap fixPesos.rows fixDeepp fixMNivel fixBon) =
      [AuditSocioRow.mk "A" (some "N1") (some 1) (1/10) 10 (some 1)]
  ∧ audit_of (calcular_fondo_globalgap fixPesos.rows fixDeepp fixMNivel fixBon) =
      [AuditRow.mk .socio_sin_gg "B" detalleSinGG]
  ∧ calcular_modelo_final fixPesos fixMap fixAnecop fixPreciosDestrio 100 0 1 (1/2) =
      .ok fixResultado
  ∧ PrecioRow.mk 1 .AAA .I (99/20) ∈ fixResultado.precios_df
  ∧ PrecioRow.mk 1 .AAA .II (99/40) ∈ fixResultado.precios_df
  ∧ fixResultado.resumen_metricas.coef = 99/20
  ∧ fixResultado.resumen_metricas.recon = 99
  ∧ fixResultado.resumen_metricas.descuadre = 0 := by
  decide

/-- C10: `parse_decimal` envía `None`, la cadena vacía y las cadenas de
solo espacios a 0; deja pasar `Decimal`, `int` y `float` por su valor; a
cualquier otra cadena le borra primero todos los puntos y después cambia
las comas por puntos antes de convertir — de modo que `"1.5"` se parsea
como 15, no como 1.5 — y lanza `ValueError` exactamente cuando la cadena
transformada no es un literal decimal válido. -/
theorem c10_parse_decimal :
    (parse_decimal .none = .ok 0)
  ∧ (∀ q : ℚ, parse_decimal (.dec q) = .ok q)
  ∧ (∀ n : Int, parse_decimal (.int n) = .ok (n : ℚ))
  ∧ (∀ q : ℚ, parse_decimal (.float q) = .ok q)
  ∧ (∀ s : String, pyStrip s = "" → parse_decimal (.str s) = .ok 0)
  ∧ (∀ (s : String) (q : ℚ), pyStrip s ≠ "" →
      decLit? (pyReplaceChar ',' '.' (pyDeleteChar '.' (pyStrip s))) = some q →
      parse_decimal (.str s) = .ok q)
  ∧ (∀ s : String, parse_decimal (.str s) = .error () ↔
      (pyStrip s ≠ "" ∧ decLit? (pyReplaceChar ',' '.' (pyDeleteChar '.' (pyStrip s))) = none))
  ∧ parse_decimal (.str "1.5") = .ok 15 := by
  refine ⟨rfl, fun q => rfl, fun n => rfl, fun q => rfl, ?_, ?_, ?_, by decide⟩
  · intro s hs
    simp [parse_decimal, hs]
  · intro s q hs hq
    simp [parse_decimal, transformaEuropea, hs, hq]
  · intro s
    by_cases hs : pyStrip s = ""
    · simp [parse_decimal, hs]
    · cases hd : decLit? (pyReplaceChar ',' '.' (pyDeleteChar '.' (pyStrip s))) with
      | none => simp [parse_decimal, transformaEuropea, hs, hd]
      | some q => simp [parse_decimal, transformaEuropea, hs, hd]

/-- Testigo de C10: `" 1.060,5 "` (formato europeo) se parsea como 1060.5 y
`"x"` lanza `ValueError`. -/
theorem c10_parse_decimal_testigo :
    parse_decimal (.str " 1.060,5 ") = .ok (2121/2) ∧ parse_decimal (.str "x") = .error () := by
  refine ⟨c10_parse_decimal.2.2.2.2.2.1 " 1.060,5 " (2121/2) (by decide) (by decide), ?_⟩
  exact (c10_parse_decimal.2.2.2.2.2.2.1 "x").mpr (by decide)

/-- C9 (contraejemplo): la reivindicación dice que un grupo cuyos kilos de
subgrado no son positivos recibe precio 0; pero el grupo AAA toma el
`valor_fruta` del subgrado `2/3` sin mirar los kilos: con 0 kg y valor 2.0
el normalizador emite precio 2.0 ≠ 0 para AAA. -/
theorem c9_contraejemplo :
    cargar_anecop [⟨1, "2/3", .int 0, .float 2⟩] =
      .ok [⟨1, .AAA, 2⟩, ⟨1, .AA, 0⟩, ⟨1, .A, 0⟩]
  ∧ (num_cell (PyVal.int 0)).getD 0 = 0
  ∧ (2 : ℚ) ≠ 0 := by
  decide

/-- C2 (contraejemplo): la reivindicación dice que `calcular_fondo_globalgap`
nunca lanza un error fatal, ni siquiera con niveles de calidad en conflicto;
pero con dos valores distintos no vacíos de `nivelglobal` para el mismo
socio lanza `ValueError("NivelGlobal inconsistente para el mismo socio")`. -/
theorem c2_contraejemplo :
    calcular_fondo_globalgap fixPesos.rows cexDeeppConflicto fixMNivel fixBon =
      .error .nivelInconsistente := by
  decide

/-- C1 (contraejemplo): la reivindicación dice que un calibre con kilos
positivos y sin fila de mapping aborta con `MappingError`; pero con `cal5`
sin mapear (7 kg del socio A) la ejecución termina en `ok` y los kilos
agrupados excluyen en silencio esos 7 kg: el total comercial de las
métricas es 30 aunque las columnas de calibre suman 37. -/
theorem c1_contraejemplo :
    build_calibre_mapping cexCorr = .ok fixMap
  ∧ cexRowCal5.cal 5 = 7
  ∧ (fixMap.all (fun mr => mr.calibre != 5)) = true
  ∧ esOk (calcular_modelo_final cexPesosSinMapear fixMap fixAnecop fixPreciosDestrio 100 0 0 (1/2)) = true
  ∧ (metricas_of (calcular_modelo_final cexPesosSinMapear fixMap fixAnecop fixPreciosDestrio 100 0 0 (1/2))).map
      (·.total_kg_comerciales) = some 30
  ∧ kilos_comerciales cexRowCal5 + kilos_comerciales cexRowCal1 = 37 := by
  decide

/-- C3 (contraejemplo): con `ratio = 2` la ejecución termina sin error y
devuelve una tabla con precio de categoría II (2) estrictamente mayor que
el de categoría I (1) para la misma semana y grupo: ni se cumple el orden
en una ejecución con éxito ni existe la `ValidationError` de orden que la
reivindicación describe. -/
theorem c3_contraejemplo :
    esOk (calcular_modelo_final cexPesosOrden fixMap fixAnecop fixPreciosDestrio 10 0 0 2) = true
  ∧ PrecioRow.mk 1 .AAA .I 1 ∈ precios_of (calcular_modelo_final cexPesosOrden fixMap fixAnecop fixPreciosDestrio 10 0 0 2)
  ∧ PrecioRow.mk 1 .AAA .II 2 ∈ precios_of (calcular_modelo_final cexPesosOrden fixMap fixAnecop fixPreciosDestrio 10 0 0 2)
  ∧ ¬ ((2 : ℚ) ≤ 1) := by
  decide

/-- C6 (contraejemplo): la reivindicación dice que todo precio de
`precios_df` está cuantizado a 4 decimales con redondeo mitad-arriba; pero
con 16 kg y bruto 1 el coeficiente es 1/16 y el precio de (1, AAA, II) es
1/32 = 0.03125, que no es su propio `q4` (0.0313): el código no aplica
`q4` al precio final (línea 148). -/
theorem c6_contraejemplo :
    PrecioRow.mk 1 .AAA .II (1/32) ∈
      precios_of (calcular_modelo_final cexPesosPrecision fixMap fixAnecop fixPreciosDestrio 1 0 0 (1/2))
  ∧ q4 (1/32) ≠ 1/32 := by
  decide

theorem halfUpInt_nonneg {x : ℚ} (hx : 0 ≤ x) : 0 ≤ halfUpInt x := by
  rw [halfUpInt, if_pos hx]
  exact Int.floor_nonneg.mpr (by linarith)

theorem halfUpInt_le_of_le {x : ℚ} {k : ℤ} (hx : 0 ≤ x) (hk : x ≤ (k : ℚ)) :
    halfUpInt x ≤ k := by
  rw [halfUpInt, if_pos hx]
  have : x + 1/2 < (k : ℚ) + 1 := by linarith
  exact Int.lt_add_one_iff.mp (Int.floor_lt.mpr (by push_cast; linarith))

theorem halfUpInt_nonpos {x : ℚ} (hx : x ≤ 0) : halfUpInt x ≤ 0 := by
  by_cases h0 : 0 ≤ x
  · have hx0 : x = 0 := le_antisymm hx h0
    subst hx0
    exact halfUpInt_le_of_le (le_refl (0 : ℚ)) (by norm_num)
  · rw [halfUpInt, if_neg h0]
    have : (0 : ℤ) ≤ ⌊-x + 1/2⌋ := Int.floor_nonneg.mpr (by linarith)
    omega

theorem q4_nonneg {x : ℚ} (hx : 0 ≤ x) : 0 ≤ q4 x := by
  rw [q4]
  have h := @halfUpInt_nonneg (x * 10000) (by positivity)
  have h2 : (0 : ℚ) ≤ (halfUpInt (x * 10000) : ℚ) := by exact_mod_cast h
  positivity

/-- Propiedad clave del orden de categorías: con factor relativo no
negativo y ratio ≤ 1, `q4 (q4 x * ratio) ≤ q4 x`. -/
theorem q4_q4_mul_ratio_le {x ratio : ℚ} (hx : 0 ≤ x) (hr : ratio ≤ 1) :
    q4 (q4 x * ratio) ≤ q4 x := by
  rw [q4, q4]
  set k : ℤ := halfUpInt (x * 10000) with hkdef
  have hk0 : (0 : ℤ) ≤ k := halfUpInt_nonneg (by positivity)
  have harg : (k : ℚ) / 10000 * ratio * 10000 = (k : ℚ) * ratio := by ring
  rw [harg]
  have hle : halfUpInt ((k : ℚ) * ratio) ≤ k := by
    by_cases hr0 : 0 ≤ ratio
    · refine halfUpInt_le_of_le (by positivity) ?_
      calc (k : ℚ) * ratio ≤ (k : ℚ) * 1 :=
            mul_le_mul_of_nonneg_left hr (by exact_mod_cast hk0)
        _ = (k : ℚ) := by ring
    · have : (k : ℚ) * ratio ≤ 0 :=
        mul_nonpos_iff.mpr (Or.inl ⟨by exact_mod_cast hk0, le_of_lt (not_le.mp hr0)⟩)
      exact le_trans (halfUpInt_nonpos this) hk0
  have : ((halfUpInt ((k : ℚ) * ratio) : ℚ)) ≤ (k : ℚ) := by exact_mod_cast hle
  exact (div_le_div_iff_of_pos_right (by norm_num)).mpr this

/-- Claves `(semana, grupo)` sin duplicar cuando `rel_keys_dup` es falso. -/
theorem nodup_claves_anecop {anecop : List AnecopRow} (h : rel_keys_dup anecop = false) :
    (anecop.map (fun a => (a.semana, a.grupo))).Nodup := by
  rw [rel_keys_dup] at h
  simp only [decide_eq_false_iff_not] at h
  have hlen : ((anecop.map (fun a => (a.semana, a.grupo))).dedup).length =
      (anecop.map (fun a => (a.semana, a.grupo))).length := by
    simpa using of_not_not h
  have hsub : ((anecop.map (fun a => (a.semana, a.grupo))).dedup).Sublist
      (anecop.map (fun a => (a.semana, a.grupo))) := List.dedup_sublist _
  have heq := hsub.eq_of_length hlen
  rw [← heq]
  exact List.nodup_dedup _

/-- Descomposición de la pertenencia a `rel_df`. -/
theorem mem_rel_df {anecop : List AnecopRow} {ref ratio : ℚ} {p : RelRow} :
    p ∈ rel_df anecop ref ratio ↔
      ∃ a ∈ anecop,
        p = RelRow.mk a.semana a.grupo .I (q4 (a.precio_base / ref)) ∨
        p = RelRow.mk a.semana a.grupo .II (q4 (q4 (a.precio_base / ref) * ratio)) := by
  simp [rel_df, List.mem_flatMap]

/-- Extracción: `precios_df` del resultado construido. -/
theorem resultadoDe_precios (kg : List KiloRow) (imp : ℚ) (anecop : List AnecopRow)
    (bruto otros fondo ratio : ℚ) (sref : Int) (ref : ℚ) (merged : List (KiloRow × ℚ)) :
    (resultadoDe kg imp anecop bruto otros fondo ratio sref ref merged).precios_df =
      insSort precioLe ((rel_df anecop ref ratio).map (fun rr =>
        PrecioRow.mk rr.semana rr.grupo rr.categoria
          (rr.rel_final * (neto_comercial bruto fondo otros imp / base_relativa merged)))) := rfl

/-- Extracción: métricas del resultado construido. -/
theorem resultadoDe_metricas (kg : List KiloRow) (imp : ℚ) (anecop : List AnecopRow)
    (bruto otros fondo ratio : ℚ) (sref : Int) (ref : ℚ) (merged : List (KiloRow × ℚ)) :
    (resultadoDe kg imp anecop bruto otros fondo ratio sref ref merged).resumen_metricas =
      Metricas.mk ((kg.map (·.kilos)).sum) imp fondo (neto_comercial bruto fondo otros imp)
        (base_relativa merged)
        (neto_comercial bruto fondo otros imp / base_relativa merged)
        ((semanasDe kg).length)
        |recon_de merged (neto_comercial bruto fondo otros imp / base_relativa merged) imp -
          (bruto - fondo - otros)|
        (recon_de merged (neto_comercial bruto fondo otros imp / base_relativa merged) imp)
        sref := rfl

/-- C3 (corregida): el factor relativo de la categoría II es
`q4(rel_I × ratio)` y su precio ese factor por el coeficiente; el motor no
comprueba el orden, pero cuando `ratio ≤ 1`, los precios base de ANECOP
son no negativos y el neto objetivo es no negativo, en toda ejecución con
éxito se cumple `precio(II) ≤ precio(I)` para cada (semana, grupo). -/
theorem c3_orden_categorias {pesos : PesosDF} {cmap : List MapRow} {anecop : List AnecopRow}
    {pd : Destrio → ℚ} {bruto otros fondo ratio : ℚ} {r : Resultado} {s : Int} {g : Grupo}
    {pI pII : ℚ}
    (hok : calcular_modelo_final pesos cmap anecop pd bruto otros fondo ratio = .ok r)
    (hratio : ratio ≤ 1)
    (hneto : 0 ≤ r.resumen_metricas.neto_obj)
    (hpb : ∀ a ∈ anecop, 0 ≤ a.precio_base)
    (hI : PrecioRow.mk s g .I pI ∈ r.precios_df)
    (hII : PrecioRow.mk s g .II pII ∈ r.precios_df) :
    pII ≤ pI := by
  unfold calcular_modelo_final at hok
  obtain ⟨-, -, -, hkeys, -, sref, ref, merged, hsref, href, hrefpos, hmer, hbase, hcu, hr⟩ :=
    calcularCore_ok_inv hok
  subst hr
  rw [resultadoDe_metricas] at hneto
  rw [resultadoDe_precios] at hI hII
  rw [mem_insSort] at hI hII
  simp only [List.mem_map] at hI hII
  obtain ⟨rrI, hrrI, heqI⟩ := hI
  obtain ⟨rrII, hrrII, heqII⟩ := hII
  rw [PrecioRow.mk.injEq] at heqI heqII
  obtain ⟨hsI, hgI, hcI, hpIeq⟩ := heqI
  obtain ⟨hsII, hgII, hcII, hpIIeq⟩ := heqII
  obtain ⟨a1, ha1, hd1⟩ := mem_rel_df.mp hrrI
  obtain ⟨a2, ha2, hd2⟩ := mem_rel_df.mp hrrII
  have hrrI_eq : rrI = RelRow.mk a1.semana a1.grupo .I (q4 (a1.precio_base / ref)) := by
    rcases hd1 with h1 | h1
    · exact h1
    · exfalso
      rw [h1] at hcI
      exact Categoria.noConfusion hcI
  have hrrII_eq : rrII = RelRow.mk a2.semana a2.grupo .II (q4 (q4 (a2.precio_base / ref) * ratio)) := by
    rcases hd2 with h2 | h2
    · exfalso
      rw [h2] at hcII
      exact Categoria.noConfusion hcII
    · exact h2
  have hinj := List.inj_on_of_nodup_map (nodup_claves_anecop hkeys)
  have ha12 : a1 = a2 := by
    apply hinj ha1 ha2
    have e1 : a1.semana = s ∧ a1.grupo = g := by
      rw [hrrI_eq] at hsI hgI
      exact ⟨hsI, hgI⟩
    have e2 : a2.semana = s ∧ a2.grupo = g := by
      rw [hrrII_eq] at hsII hgII
      exact ⟨hsII, hgII⟩
    rw [e1.1, e1.2, e2.1, e2.2]
  subst ha12
  have hx : 0 ≤ a1.precio_base / ref := div_nonneg (hpb a1 ha1) (le_of_lt hrefpos)
  have hcoef : 0 ≤ neto_comercial bruto fondo otros
      (importe_destrios pesos.rows pd) / base_relativa merged :=
    div_nonneg (by simpa using hneto) (le_of_lt hbase)
  rw [← hpIeq, ← hpIIeq, hrrI_eq, hrrII_eq]
  exact mul_le_mul_of_nonneg_right (q4_q4_mul_ratio_le hx hratio) hcoef

/-- Testigo de C3 (corregida): en el escenario mínimo (`ratio = 1/2`),
99/40 ≤ 99/20. -/
theorem c3_orden_categorias_testigo : (99/40 : ℚ) ≤ 99/20 := by
  have hok : calcular_modelo_final fixPesos fixMap fixAnecop fixPreciosDestrio 100 0 1 (1/2) =
      .ok fixResultado := by decide
  have hI : PrecioRow.mk 1 .AAA .I (99/20) ∈ fixResultado.precios_df := by decide
  have hII : PrecioRow.mk 1 .AAA .II (99/40) ∈ fixResultado.precios_df := by decide
  exact c3_orden_categorias hok (by norm_num) (by decide) (by decide) hI hII

/-- C6 (corregida): los precios de `precios_df` NO se cuantizan: cada fila
lleva el producto sin redondear `rel_final × coef`, donde solo el factor
relativo `rel_final` está redondeado a 4 decimales (el código de la línea
148 no aplica `q4` al precio final). -/
theorem c6_precio_sin_cuantizar {pesos : PesosDF} {cmap : List MapRow} {anecop : List AnecopRow}
    {pd : Destrio → ℚ} {bruto otros fondo ratio : ℚ} {r : Resultado}
    (hok : calcular_modelo_final pesos cmap anecop pd bruto otros fondo ratio = .ok r) :
    ∃ sref ref,
      semana_ref? (semanas_anecop anecop) (semanasDe (kilos_group pesos.rows cmap)) = some sref ∧
      precio_ref? anecop sref = some ref ∧
      ∀ p ∈ r.precios_df, ∃ rr ∈ rel_df anecop ref ratio,
        p.semana = rr.semana ∧ p.calibre = rr.grupo ∧ p.categoria = rr.categoria ∧
        p.precio_final = rr.rel_final * r.resumen_metricas.coef := by
  unfold calcular_modelo_final at hok
  obtain ⟨-, -, -, -, -, sref, ref, merged, hsref, href, -, -, -, -, hr⟩ :=
    calcularCore_ok_inv hok
  subst hr
  refine ⟨sref, ref, hsref, href, ?_⟩
  intro p hp
  rw [resultadoDe_precios, mem_insSort] at hp
  simp only [List.mem_map] at hp
  obtain ⟨rr, hrr, hpeq⟩ := hp
  refine ⟨rr, hrr, ?_⟩
  rw [resultadoDe_metricas, ← hpeq]
  exact ⟨rfl, rfl, rfl, rfl⟩

/-- Testigo de C6 (corregida), en la ejecución con `coef = 1/16`. -/
theorem c6_precio_sin_cuantizar_testigo :
    ∃ sref ref,
      semana_ref? (semanas_anecop fixAnecop) (semanasDe (kilos_group cexPesosPrecision.rows fixMap)) = some sref ∧
      precio_ref? fixAnecop sref = some ref ∧
      ∀ p ∈ cexResultadoPrecision.precios_df, ∃ rr ∈ rel_df fixAnecop ref (1/2),
        p.semana = rr.semana ∧ p.calibre = rr.grupo ∧ p.categoria = rr.categoria ∧
        p.precio_final = rr.rel_final * cexResultadoPrecision.resumen_metricas.coef := by
  have hok : calcular_modelo_final cexPesosPrecision fixMap fixAnecop fixPreciosDestrio 1 0 0 (1/2) =
      .ok cexResultadoPrecision := by decide
  exact c6_precio_sin_cuantizar hok

/-- C7: si la base relativa ponderada es ≤ 0 tras superar las etapas
anteriores, el motor lanza la `ValidationError` de `validar_total_rel`
antes de la división; y toda ejecución con éxito tiene `total_rel > 0`,
de modo que la división `neto / base` solo se ejecuta con denominador
estrictamente positivo. -/
theorem c7_base_relativa (pesos : PesosDF) (cmap : List MapRow) (anecop : List AnecopRow)
    (pd : Destrio → ℚ) (bruto otros fondo ratio : ℚ) :
    (∀ (sref : Int) (ref : ℚ) (merged : List (KiloRow × ℚ)),
      validar_columnas_minimas_pesosfres pesos.cols = .ok () →
      calibres_dup cmap = false →
      validar_semanas_kilos_vs_anecop (semanasDe (kilos_group pesos.rows cmap))
        (semanas_anecop anecop) = .ok () →
      semana_ref? (semanas_anecop anecop) (semanasDe (kilos_group pesos.rows cmap)) = some sref →
      precio_ref? anecop sref = some ref →
      0 < ref →
      rel_keys_dup anecop = false →
      merged? (kilos_group pesos.rows cmap) (rel_df anecop ref ratio) = some merged →
      base_relativa merged ≤ 0 →
      calcular_modelo_final pesos cmap anecop pd bruto otros fondo ratio =
        .error .totalRelNoPositivo)
  ∧ (∀ r, calcular_modelo_final pesos cmap anecop pd bruto otros fondo ratio = .ok r →
      0 < r.resumen_metricas.total_rel) := by
  constructor
  · intro sref ref merged h1 h2 h3 h4 h5 h6 h7 h8 hle
    unfold calcular_modelo_final calcularCore
    simp only [h1, h2, h3, h4, h5, h7, h8, Bool.false_eq_true, if_false,
      validar_referencia, if_neg (not_le.mpr h6),
      validar_total_rel, if_pos hle]
  · intro r hok
    unfold calcular_modelo_final at hok
    obtain ⟨-, -, -, -, -, sref, ref, merged, -, -, -, -, hbase, -, hr⟩ :=
      calcularCore_ok_inv hok
    subst hr
    rw [resultadoDe_metricas]
    exact hbase

/-- Testigo de C7: con un precio AA negativo la base relativa vale −10 y la
ejecución aborta con la `ValidationError` de `validar_total_rel`. -/
theorem c7_base_relativa_testigo :
    calcular_modelo_final cexPesosOrden cexMapAA cexAnecopNegativo fixPreciosDestrio 1 0 0 (1/2) =
      .error .totalRelNoPositivo := by
  have h := (c7_base_relativa cexPesosOrden cexMapAA cexAnecopNegativo fixPreciosDestrio 1 0 0 (1/2)).1
  exact h 1 1 [(KiloRow.mk 1 .AA .I 10, -1)] (by decide) (by decide) (by decide) (by decide)
    (by decide) (by decide) (by decide) (by decide) (by decide)

/-- C8: la semana de referencia es la menor semana presente a la vez en
ANECOP y en los kilos comerciales; si no hay semana común la ejecución
aborta (`ValueError`), y si el precio base AAA de la semana elegida es ≤ 0
aborta con la `ValidationError` de `validar_referencia`, antes de calcular
ningún factor relativo. -/
theorem c8_semana_referencia (pesos : PesosDF) (cmap : List MapRow) (anecop : List AnecopRow)
    (pd : Destrio → ℚ) (bruto otros fondo ratio : ℚ)
    (hcols : validar_columnas_minimas_pesosfres pesos.cols = .ok ())
    (hdup : calibres_dup cmap = false)
    (hsem : validar_semanas_kilos_vs_anecop (semanasDe (kilos_group pesos.rows cmap))
      (semanas_anecop anecop) = .ok ()) :
    (semana_ref? (semanas_anecop anecop) (semanasDe (kilos_group pesos.rows cmap)) = none →
      calcular_modelo_final pesos cmap anecop pd bruto otros fondo ratio = .error .sinSemanaRef)
  ∧ (∀ s, semana_ref? (semanas_anecop anecop) (semanasDe (kilos_group pesos.rows cmap)) = some s →
      s ∈ semanas_anecop anecop ∧ s ∈ semanasDe (kilos_group pesos.rows cmap) ∧
      ∀ t, t ∈ semanas_anecop anecop → t ∈ semanasDe (kilos_group pesos.rows cmap) → s ≤ t)
  ∧ (∀ (s : Int) (ref : ℚ),
      semana_ref? (semanas_anecop anecop) (semanasDe (kilos_group pesos.rows cmap)) = some s →
      precio_ref? anecop s = some ref → ref ≤ 0 →
      calcular_modelo_final pesos cmap anecop pd bruto otros fondo ratio =
        .error .referenciaNoPositiva) := by
  refine ⟨?_, ?_, ?_⟩
  · intro hnone
    unfold calcular_modelo_final calcularCore
    simp only [hcols, hdup, hsem, hnone, Bool.false_eq_true, if_false]
  · intro s hs
    unfold semana_ref? at hs
    obtain ⟨hps, hmem, hmin⟩ := find?_min_of_sorted (insSort_sorted_int _) hs
    refine ⟨(mem_insSort intLe).mp hmem, ?_, ?_⟩
    · simpa using hps
    · intro t ht hkt
      exact hmin t ((mem_insSort intLe).mpr ht) (by simpa using hkt)
  · intro s ref hs href hle
    unfold calcular_modelo_final calcularCore
    simp only [hcols, hdup, hsem, hs, href, Bool.false_eq_true, if_false,
      validar_referencia, if_pos hle]

/-- Testigo de C8: con kilos solo en la semana 2 y ANECOP en las semanas
1 y 2, la semana de referencia es la 2 (mínima común) y su precio AAA = 0
aborta con `ValidationError`. -/
theorem c8_semana_referencia_testigo :
    calcular_modelo_final cexPesosSem2 fixMap cexAnecopRefCero fixPreciosDestrio 1 0 0 (1/2) =
      .error .referenciaNoPositiva
  ∧ (2 : Int) ∈ semanas_anecop cexAnecopRefCero := by
  have h := c8_semana_referencia cexPesosSem2 fixMap cexAnecopRefCero fixPreciosDestrio 1 0 0 (1/2)
    (by decide) (by decide) (by decide)
  refine ⟨h.2.2 2 0 (by decide) (by decide) (by decide), (h.2.1 2 (by decide)).1⟩

/-- C4: tras derivar los precios finales el motor recalcula
`recon = Σ kilos × rel × coef + importe_destrios` y lanza la
`ValidationError` de `validar_cuadre` exactamente cuando
`|recon − (bruto − fondo − otros)|` supera la tolerancia 0.01; en caso
contrario la ejecución termina con éxito y el descuadre queda en las
métricas (`descuadre` y `recon`). -/
theorem c4_cuadre (pesos : PesosDF) (cmap : List MapRow) (anecop : List AnecopRow)
    (pd : Destrio → ℚ) (bruto otros fondo ratio : ℚ)
    (sref : Int) (ref : ℚ) (merged : List (KiloRow × ℚ))
    (h1 : validar_columnas_minimas_pesosfres pesos.cols = .ok ())
    (h2 : calibres_dup cmap = false)
    (h3 : validar_semanas_kilos_vs_anecop (semanasDe (kilos_group pesos.rows cmap))
      (semanas_anecop anecop) = .ok ())
    (h4 : semana_ref? (semanas_anecop anecop) (semanasDe (kilos_group pesos.rows cmap)) = some sref)
    (h5 : precio_ref? anecop sref = some ref)
    (h6 : 0 < ref)
    (h7 : rel_keys_dup anecop = false)
    (h8 : merged? (kilos_group pesos.rows cmap) (rel_df anecop ref ratio) = some merged)
    (h9 : 0 < base_relativa merged)
    (h11 : (semanas_sin_rel (kilos_group pesos.rows cmap) anecop).isEmpty = true) :
    (1/100 < |recon_de merged (neto_comercial bruto fondo otros (importe_destrios pesos.rows pd) /
          base_relativa merged) (importe_destrios pesos.rows pd) - (bruto - fondo - otros)| →
      calcular_modelo_final pesos cmap anecop pd bruto otros fondo ratio = .error .descuadre)
  ∧ (|recon_de merged (neto_comercial bruto fondo otros (importe_destrios pesos.rows pd) /
          base_relativa merged) (importe_destrios pesos.rows pd) - (bruto - fondo - otros)| ≤ 1/100 →
      ∃ r, calcular_modelo_final pesos cmap anecop pd bruto otros fondo ratio = .ok r ∧
        r.resumen_metricas.recon =
          recon_de merged (neto_comercial bruto fondo otros (importe_destrios pesos.rows pd) /
            base_relativa merged) (importe_destrios pesos.rows pd) ∧
        r.resumen_metricas.descuadre =
          |recon_de merged (neto_comercial bruto fondo otros (importe_destrios pesos.rows pd) /
            base_relativa merged) (importe_destrios pesos.rows pd) - (bruto - fondo - otros)|) := by
  constructor
  · intro hlt
    unfold calcular_modelo_final calcularCore
    simp only [h1, h2, h3, h4, h5, h7, h8, Bool.false_eq_true, if_false,
      validar_referencia, if_neg (not_le.mpr h6),
      validar_total_rel, if_neg (not_le.mpr h9),
      validar_cuadre_eq_error hlt]
  · intro hle
    refine ⟨resultadoDe (kilos_group pesos.rows cmap) (importe_destrios pesos.rows pd)
      anecop bruto otros fondo ratio sref ref merged, ?_, ?_, ?_⟩
    · unfold calcular_modelo_final
      exact calcularCore_eq_ok h1 h2 h3 h4 h5 h6 h7 h8 h9 hle h11
    · rw [resultadoDe_metricas]
    · rw [resultadoDe_metricas]

/-- Testigo de C4: en el escenario mínimo el descuadre es 0 ≤ 0.01, la
ejecución termina con éxito y las métricas llevan `recon` y `descuadre`. -/
theorem c4_cuadre_testigo :
    ∃ r, calcular_modelo_final fixPesos fixMap fixAnecop fixPreciosDestrio 100 0 1 (1/2) = .ok r ∧
      r.resumen_metricas.recon =
        recon_de [(KiloRow.mk 1 .AAA .I 10, 1), (KiloRow.mk 1 .AAA .II 20, 1/2)]
          (neto_comercial 100 1 0 (importe_destrios fixPesos.rows fixPreciosDestrio) /
            base_relativa [(KiloRow.mk 1 .AAA .I 10, 1), (KiloRow.mk 1 .AAA .II 20, 1/2)])
          (importe_destrios fixPesos.rows fixPreciosDestrio) ∧
      r.resumen_metricas.descuadre =
        |recon_de [(KiloRow.mk 1 .AAA .I 10, 1), (KiloRow.mk 1 .AAA .II 20, 1/2)]
          (neto_comercial 100 1 0 (importe_destrios fixPesos.rows fixPreciosDestrio) /
            base_relativa [(KiloRow.mk 1 .AAA .I 10, 1), (KiloRow.mk 1 .AAA .II 20, 1/2)])
          (importe_destrios fixPesos.rows fixPreciosDestrio) - (100 - 1 - 0)| := by
  exact (c4_cuadre fixPesos fixMap fixAnecop fixPreciosDestrio 100 0 1 (1/2) 1 2
    [(KiloRow.mk 1 .AAA .I 10, 1), (KiloRow.mk 1 .AAA .II 20, 1/2)]
    (by decide) (by decide) (by decide) (by decide) (by decide) (by decide)
    (by decide) (by decide) (by decide) (by decide)).2 (by decide)

/-- C2 (corregida): `calcular_fondo_globalgap` lanza un error fatal
(`ValueError`, línea 87) exactamente cuando algún socio tiene dos o más
valores distintos no vacíos de `nivelglobal`; en cualquier otro caso
devuelve el fondo y las tablas de auditoría, y todo socio con kilos sin
certificación GLOBAL GAP aparece en la lista de excepciones (los
conflictos solo de `certificacion_norm` se resuelven con el primer valor
y se auditan, sin error). -/
theorem fondoResultadoDe_audit (pesos : List PesoRow) (deepp : List DeeppRow)
    (mnivel : List MNivelRow) (bon : List ℚ) :
    (fondoResultadoDe pesos deepp mnivel bon).audit =
      ((socios_no_gg_de pesos (deepp_filtrado pesos deepp)).map
        (fun s => AuditRow.mk .socio_sin_gg s detalleSinGG))
      ++ ((build_inconsistencias (deepp_filtrado pesos deepp)).map
        (fun i => AuditRow.mk (tipoIncons i.campo) i.idsocio i.valores_distintos)) := rfl

theorem hay_nivel_inconsistente_iff (deeppF : List DeeppRow) :
    hay_nivel_inconsistente deeppF = true ↔
      ∃ s ∈ socios_deepp deeppF,
        2 ≤ (distinct_non_empty ((deeppF.filter
              (fun r => pyStrip r.idsocio == s)).map nivel_norm)).length := by
  rw [hay_nivel_inconsistente, Bool.not_eq_true', List.isEmpty_eq_false]
  constructor
  · intro hne
    obtain ⟨x, hx⟩ := List.exists_mem_of_ne_nil _ hne
    obtain ⟨hxb, hxp⟩ := List.mem_filter.mp hx
    rw [build_inconsistencias] at hxb
    rcases List.mem_append.mp hxb with hA | hB
    · obtain ⟨s, hs, hfs⟩ := List.mem_filterMap.mp hA
      by_cases hlen : 2 ≤ (distinct_non_empty ((deeppF.filter
          (fun r => pyStrip r.idsocio == s)).map nivel_norm)).length
      · exact ⟨s, hs, hlen⟩
      · simp only [if_neg hlen] at hfs
        exact Option.noConfusion hfs
    · obtain ⟨s, hs, hfs⟩ := List.mem_filterMap.mp hB
      simp only [] at hfs
      split_ifs at hfs with hlen
      injection hfs with hfs
      rw [← hfs] at hxp
      simp at hxp
  · rintro ⟨s, hs, hlen⟩
    have hmemA : InconsRow.mk s .nivelglobal (String.intercalate " | "
        (distinct_non_empty ((deeppF.filter
          (fun r => pyStrip r.idsocio == s)).map nivel_norm))) ∈
        build_inconsistencias deeppF := by
      rw [build_inconsistencias]
      apply List.mem_append.mpr
      left
      apply List.mem_filterMap.mpr
      exact ⟨s, hs, by rw [if_pos hlen]⟩
    have hmemF : InconsRow.mk s .nivelglobal (String.intercalate " | "
        (distinct_non_empty ((deeppF.filter
          (fun r => pyStrip r.idsocio == s)).map nivel_norm))) ∈
        (build_inconsistencias deeppF).filter
          (fun i => i.campo == CampoIncons.nivelglobal) :=
      List.mem_filter.mpr ⟨hmemA, by simp⟩
    exact List.ne_nil_of_mem hmemF

/-- C2 (corregida): `calcular_fondo_globalgap` lanza un error fatal
(`ValueError`, línea 87) exactamente cuando algún socio tiene dos o más
valores distintos no vacíos de `nivelglobal`; en cualquier otro caso
devuelve el fondo y las tablas de auditoría, y todo socio con kilos sin
certificación GLOBAL GAP aparece en la lista de excepciones (los
conflictos solo de `certificacion_norm` se resuelven con el primer valor
y se auditan, sin error). -/
theorem c2_fondo_gg_errores (pesos : List PesoRow) (deepp : List DeeppRow)
    (mnivel : List MNivelRow) (bon : List ℚ) :
    ((∃ e, calcular_fondo_globalgap pesos deepp mnivel bon = .error e) ↔
      ∃ s ∈ socios_deepp (deepp_filtrado pesos deepp),
        2 ≤ (distinct_non_empty (((deepp_filtrado pesos deepp).filter
              (fun r => pyStrip r.idsocio == s)).map nivel_norm)).length)
  ∧ (∀ out, calcular_fondo_globalgap pesos deepp mnivel bon = .ok out →
      ∀ s ∈ (kilos_socios pesos).map (·.1),
        s ∉ ((socios_gg_de (deepp_filtrado pesos deepp)).map (·.1)) →
        AuditRow.mk .socio_sin_gg s detalleSinGG ∈ out.audit) := by
  constructor
  · rw [← hay_nivel_inconsistente_iff]
    unfold calcular_fondo_globalgap
    by_cases hg : hay_nivel_inconsistente (deepp_filtrado pesos deepp) = true
    · rw [if_pos hg]
      exact ⟨fun _ => hg, fun _ => ⟨.nivelInconsistente, rfl⟩⟩
    · rw [if_neg hg]
      constructor
      · rintro ⟨e, he⟩
        exact Except.noConfusion he
      · intro hx
        exact absurd hx hg
  · intro out hok s hks hnogg
    unfold calcular_fondo_globalgap at hok
    by_cases hg : hay_nivel_inconsistente (deepp_filtrado pesos deepp) = true
    · rw [if_pos hg] at hok
      exact Except.noConfusion hok
    · rw [if_neg hg] at hok
      injection hok with hok
      rw [← hok, fondoResultadoDe_audit]
      apply List.mem_append.mpr
      left
      apply List.mem_map.mpr
      refine ⟨s, ?_, rfl⟩
      rw [socios_no_gg_de, mem_insSort, List.mem_dedup, List.mem_filter]
      refine ⟨hks, ?_⟩
      simpa using hnogg

/-- Testigo de C2 (corregida): en el escenario mínimo el socio B (con
kilos y sin GLOBAL GAP) aparece en la lista de excepciones devuelta. -/
theorem c2_fondo_gg_errores_testigo :
    AuditRow.mk TipoAudit.socio_sin_gg "B" detalleSinGG ∈
      audit_of (calcular_fondo_globalgap fixPesos.rows fixDeepp fixMNivel fixBon) := by
  have hok : calcular_fondo_globalgap fixPesos.rows fixDeepp fixMNivel fixBon =
      .ok (FondoResultado.mk (some 1)
        [AuditSocioRow.mk "A" (some "N1") (some 1) (1/10) 10 (some 1)]
        [AuditRow.mk .socio_sin_gg "B" detalleSinGG]) := by decide
  have h := (c2_fondo_gg_errores fixPesos.rows fixDeepp fixMNivel fixBon).2 _ hok "B"
    (by decide) (by decide)
  simpa only [hok, audit_of] using h

theorem filtro_tres_filas (p1 p2 p3 : Int → ℚ) {ws : List Int} (hnd : ws.Nodup)
    (w : Int) (g : Grupo) :
    ((ws.flatMap (fun v =>
        [AnecopRow.mk v .AAA (p1 v), AnecopRow.mk v .AA (p2 v), AnecopRow.mk v .A (p3 v)])).filter
      (fun a => a.semana == w && a.grupo == g)).length = if w ∈ ws then 1 else 0 := by
  induction ws with
  | nil => simp
  | cons v t ih =>
    rcases List.nodup_cons.mp hnd with ⟨hv, ht⟩
    rw [List.flatMap_cons, List.filter_append, List.length_append, ih ht]
    by_cases hw : v = w
    · subst hw
      have h1 : (([AnecopRow.mk v .AAA (p1 v), AnecopRow.mk v .AA (p2 v),
          AnecopRow.mk v .A (p3 v)]).filter (fun a => a.semana == v && a.grupo == g)).length = 1 := by
        cases g <;> simp
      rw [h1, if_neg hv, if_pos (List.mem_cons_self v t)]
    · have h0 : (([AnecopRow.mk v .AAA (p1 v), AnecopRow.mk v .AA (p2 v),
          AnecopRow.mk v .A (p3 v)]).filter (fun a => a.semana == w && a.grupo == g)).length = 0 := by
        cases g <;> simp [hw]
      rw [h0]
      by_cases hwt : w ∈ t
      · rw [if_pos hwt, if_pos (List.mem_cons_of_mem v hwt)]
      · rw [if_neg hwt, if_neg (by simp [hw, hwt, List.mem_cons, Ne.symm])]

/-- C9 (corregida): con filas de entrada y todas las celdas convertibles,
el normalizador emite exactamente un precio base por (semana, grupo); los
grupos con varios subgrados (AA y A) llevan la media ponderada por kg, con
precio 0 si la suma de kg no es positiva; el grupo AAA toma el valor del
subgrado `2/3` tal cual, sin mirar los kilos; y sin filas válidas la carga
falla. -/
theorem c9_normalizador (df : List AnecopRawRow)
    (h1 : df.isEmpty = false)
    (h2 : df.any (fun r => (num_cell r.kg).isNone || (num_cell r.valor_fruta).isNone) = false) :
    (∃ l, cargar_anecop df = .ok l ∧
      (∀ w ∈ df.map (·.semana), ∀ g : Grupo,
        (l.filter (fun a => a.semana == w && a.grupo == g)).length = 1) ∧
      (∀ w ∈ df.map (·.semana),
        AnecopRow.mk w .AAA (precioAAAsem df w) ∈ l ∧
        AnecopRow.mk w .AA (precioAAsem df w) ∈ l ∧
        AnecopRow.mk w .A (precioAsem df w) ∈ l) ∧
      (∀ w, kgAAsem df w ≤ 0 → precioAAsem df w = 0) ∧
      (∀ w, kgAsem df w ≤ 0 → precioAsem df w = 0))
  ∧ (∀ df0 : List AnecopRawRow, df0.isEmpty = true → cargar_anecop df0 = .error .sinFilas) := by
  have hnd : (insSort intLe ((df.map (·.semana)).dedup)).Nodup :=
    ((insSort_perm intLe _).nodup_iff).mpr (List.nodup_dedup _)
  constructor
  · refine ⟨(insSort intLe ((df.map (·.semana)).dedup)).flatMap (fun w =>
      [AnecopRow.mk w .AAA (precioAAAsem df w), AnecopRow.mk w .AA (precioAAsem df w),
       AnecopRow.mk w .A (precioAsem df w)]), ?_, ?_, ?_, ?_, ?_⟩
    · simp [cargar_anecop, h1, h2]
    · intro w hw g
      rw [filtro_tres_filas (precioAAAsem df) (precioAAsem df) (precioAsem df) hnd w g,
        if_pos ((mem_insSort intLe).mpr (List.mem_dedup.mpr hw))]
    · intro w hw
      have hmem : w ∈ insSort intLe ((df.map (·.semana)).dedup) :=
        (mem_insSort intLe).mpr (List.mem_dedup.mpr hw)
      refine ⟨?_, ?_, ?_⟩ <;> exact List.mem_flatMap.mpr ⟨w, hmem, by simp⟩
    · intro w h
      rw [precioAAsem]
      simp [h]
    · intro w h
      rw [precioAsem]
      simp [h]
  · intro df0 h0
    simp [cargar_anecop, h0]

/-- Testigo de C9 (corregida): con los subgrados 4 (10 kg a 2.0) y 5
(30 kg a 1.0), el grupo AA recibe la media ponderada 1.25. -/
theorem c9_normalizador_testigo :
    ∃ l, cargar_anecop cexAnecopRaw = .ok l ∧
      AnecopRow.mk 1 .AA (precioAAsem cexAnecopRaw 1) ∈ l ∧
      precioAAsem cexAnecopRaw 1 = 5/4 := by
  obtain ⟨l, hok, -, hmem, -, -⟩ := (c9_normalizador cexAnecopRaw (by decide) (by decide)).1
  exact ⟨l, hok, (hmem 1 (by decide)).2.1, by decide⟩

/-- C1 (corregida): un calibre sin fila de mapping queda excluido en
silencio por el merge interno de la línea 46: el resultado completo de
`calcular_modelo_final` no depende de la columna `cal c` cuando ningún
registro del mapping menciona el calibre `c`; solo un mapping vacío es
fatal (en `build_calibre_mapping`). -/
theorem c1_calibre_sin_mapping_ignorado (c : Fin 12) (cmap : List MapRow)
    (hc : ∀ mr ∈ cmap, mr.calibre ≠ c)
    (cols : List String) (rows rows' : List PesoRow)
    (hrr : List.Forall₂ (AgreeSalvoCal c) rows rows')
    (anecop : List AnecopRow) (pd : Destrio → ℚ) (bruto otros fondo ratio : ℚ) :
    calcular_modelo_final (PesosDF.mk cols rows) cmap anecop pd bruto otros fondo ratio =
    calcular_modelo_final (PesosDF.mk cols rows') cmap anecop pd bruto otros fondo ratio := by
  have hsem : rows.map (·.semana) = rows'.map (·.semana) :=
    map_congr_forall₂ hrr (fun a b hab => hab.2.2.2.2.1)
  have hkat : ∀ s g cc, kilosAt rows cmap s g cc = kilosAt rows' cmap s g cc := by
    intro s g cc
    unfold kilosAt
    apply congrArg List.sum
    apply map_congr_forall₂ hrr
    intro a b hab
    obtain ⟨-, -, -, -, hsem', -, -, -, -, hcal⟩ := hab
    rw [hsem']
    by_cases hbs : b.semana = s
    · rw [if_pos hbs, if_pos hbs]
      apply congrArg List.sum
      apply List.map_congr_left
      intro mr hmr
      exact hcal mr.calibre (hc mr (List.mem_of_mem_filter hmr))
    · rw [if_neg hbs, if_neg hbs]
  have hkg : kilos_group rows cmap = kilos_group rows' cmap := by
    unfold kilos_group
    rw [hsem]
    simp only [hkat]
  have hmapd : ∀ d, rows.map (fun r => q4 (destrio_kg r d * pd d)) =
      rows'.map (fun r => q4 (destrio_kg r d * pd d)) := by
    intro d
    apply map_congr_forall₂ hrr
    intro a b hab
    obtain ⟨-, -, -, -, -, -, hdl, hdm, hpo, -⟩ := hab
    cases d <;> simp [destrio_kg, hdl, hdm, hpo]
  have himp : importe_destrios rows pd = importe_destrios rows' pd := by
    unfold importe_destrios
    simp only [hmapd]
  unfold calcular_modelo_final
  rw [hkg, himp]

/-- Testigo de C1 (corregida): cambiar los kilos del calibre sin mapping
`cal5` de 7 a 99 no altera en nada el resultado. -/
theorem c1_calibre_sin_mapping_ignorado_testigo :
    calcular_modelo_final (PesosDF.mk fixCols [cexRowCal5, cexRowCal1]) fixMap fixAnecop
      fixPreciosDestrio 100 0 0 (1/2) =
    calcular_modelo_final (PesosDF.mk fixCols [cexRowCal5b, cexRowCal1]) fixMap fixAnecop
      fixPreciosDestrio 100 0 0 (1/2) := by
  apply c1_calibre_sin_mapping_ignorado 5 fixMap (by decide) fixCols _ _ ?_ fixAnecop
    fixPreciosDestrio 100 0 0 (1/2)
  refine List.Forall₂.cons ?_ (List.Forall₂.cons ?_ List.Forall₂.nil)
  · refine ⟨rfl, rfl, rfl, rfl, rfl, rfl, rfl, rfl, rfl, ?_⟩
    decide
  · exact ⟨rfl, rfl, rfl, rfl, rfl, rfl, rfl, rfl, rfl, fun i _ => rfl⟩

end Liquidaciones
